import Mathlib

/-!
Verification of the configuration loading / validation core of the
`domino_cdk` EKS config model (`domino_cdk/config/eks.py`).

The Python code works on untyped nested mappings (parsed YAML/JSON).
We embed Python values as the inductive `Value`, mappings as association
lists (`RawDict`) with destructive `pop` semantics, and fallible loading
as `Except PyError`.
-/

set_option autoImplicit false

namespace DominoCdk

/-- Embedding of the untyped Python/YAML values the config loaders handle:
strings, booleans, integers, lists, string-keyed mappings and `None`. -/
inductive Value where
  | str : String → Value
  | bool : Bool → Value
  | int : Int → Value
  | list : List Value → Value
  | dict : List (String × Value) → Value
  | none : Value
  deriving Repr

/-- Python truthiness (`bool(v)`): `None`, `False`, `0`, `""`, `[]` and `{}`
are falsy, everything else truthy. -/
def Value.truthy : Value → Bool
  | .str s => s ≠ ""
  | .bool b => b
  | .int n => n ≠ 0
  | .list xs => ¬xs.isEmpty
  | .dict xs => ¬xs.isEmpty
  | .none => false

/-- Python `v == 0` for the embedded values: `0 == 0` is true and, since
Python `bool` is an `int` subtype, `False == 0` is also true; all other
embedded values compare unequal to `0`. -/
def Value.pyEqZero : Value → Bool
  | .int n => n = 0
  | .bool b => b = false
  | _ => false

/-- A raw configuration mapping: insertion-ordered string-keyed entries,
as a Python `dict` (keys are unique in dicts produced by a parser). -/
abbrev RawDict := List (String × Value)

/-- Failures of the loading pipeline: `keyError` is Python's `KeyError`
from `dict.pop` on a missing key, `configError` is the leftover-key
`ConfigError` (context and offending keys), `typeError` stands for
Python `TypeError`/`AttributeError` on a value of the wrong shape, and
`valueError` is the aggregate `ValueError` raised by `EKS.__post_init__`
with its list of validation messages. -/
inductive PyError where
  | keyError : String → PyError
  | configError : String → List String → PyError
  | typeError : String → PyError
  | valueError : List String → PyError
  deriving Repr

namespace RawDict

/-- The keys of a raw mapping, in insertion order. -/
def keys (d : RawDict) : List String := d.map (·.1)

/-- Lookup without removal (Python `d[k]` as a partial read): the value of
the first entry whose key is `k`, if any. -/
def find (d : RawDict) (k : String) : Option Value :=
  (d.find? (fun p => p.1 = k)).map (·.2)

/-- Removal of every entry keyed `k` (the effect of a successful Python
`pop` on the mapping; on the unique-key mappings a parser produces this
removes exactly the one entry). -/
def removeKey (d : RawDict) (k : String) : RawDict :=
  d.filter (fun p => p.1 ≠ k)

/-- Python `d.pop(k)`: remove and return the value at `k`, raising
`KeyError` when absent. -/
def pop (d : RawDict) (k : String) : Except PyError (Value × RawDict) :=
  match d.find? (fun p => p.1 = k) with
  | some p => .ok (p.2, removeKey d k)
  | Option.none => .error (.keyError k)

/-- Python `d.pop(k, default)`: remove and return the value at `k`, or
return `default` leaving `d` unchanged when absent. -/
def popD (d : RawDict) (k : String) (default : Value) : Value × RawDict :=
  match d.find? (fun p => p.1 = k) with
  | some p => (p.2, removeKey d k)
  | Option.none => (default, d)

/-- Replacement of the value at every entry keyed `k` (keys and order are
untouched; on unique-key mappings this is Python's in-place update). -/
def setAll : RawDict → String → Value → RawDict
  | [], _, _ => []
  | p :: rest, k, v => (if p.1 = k then (k, v) else p) :: setAll rest k v

/-- Python `d[k] = v`: replace the value at `k` in place when present,
append the entry otherwise (insertion order is preserved). -/
def set (d : RawDict) (k : String) (v : Value) : RawDict :=
  if d.any (fun p => p.1 = k) then setAll d k v
  else d ++ [(k, v)]

/-- Python `{**a, **b}`: entries of `a` in order, updated/extended by the
entries of `b` (values from `b` win on key clashes). -/
def merge (a b : RawDict) : RawDict :=
  b.foldl (fun acc p => set acc p.1 p.2) a

end RawDict

/-- Modelled from the spec: `IngressRule` lives in `domino_cdk/config/util.py`,
which is not part of the sources; the spec treats its per-entry field
extraction as an external collaborator ("treated as given"), so we keep the
raw entry opaque. -/
structure IngressRule where
  raw : Value
  deriving Repr

/-- The elements Python iteration yields on an embedded value: a list yields
its elements, a dict yields its keys, anything else yields nothing here
(only lists and dicts reach this point in the modelled code). -/
def Value.iterList : Value → List Value
  | .list xs => xs
  | .dict xs => xs.map (fun p => Value.str p.1)
  | _ => []

/-- Modelled from the spec: `IngressRule.load_rules` (external collaborator,
not in the sources) parses each entry of the given sequence into an
`IngressRule`; per-entry extraction is treated as given, so each yielded
entry is wrapped opaquely. -/
def IngressRule.load_rules (v : Value) : List IngressRule :=
  v.iterList.map IngressRule.mk

/-- Modelled from the spec: `check_leavins(item_label, context_name, remaining)`
from `domino_cdk/config/util.py` (not in the sources) fails with a
`ConfigError` naming the context and the unexpected keys when the remaining
mapping is non-empty after extraction. -/
def check_leavins (itemLabel ctx : String) (d : RawDict) : Except PyError Unit :=
  if d.isEmpty then .ok () else .error (.configError (itemLabel ++ " " ++ ctx) d.keys)

/-- Modelled from the spec: `from_loader(context_name, built_object, remaining)`
from `domino_cdk/config/util.py` (not in the sources) returns the built
object unchanged when the remaining mapping is empty, and fails with a
`ConfigError` naming the context and the unexpected keys otherwise. -/
def from_loader {α : Type} (ctx : String) (built : α) (d : RawDict) : Except PyError α :=
  if d.isEmpty then .ok built else .error (.configError ctx d.keys)

namespace EKS

/-- The eleven shared nodegroup fields extracted by
`EKS.NodegroupBase.base_load` (the values are untyped, as in Python). -/
structure BaseFields where
  ssm_agent : Value
  disk_size : Value
  key_name : Value
  min_size : Value
  max_size : Value
  ami_id : Value
  user_data : Value
  instance_types : Value
  labels : Value
  tags : Value
  deriving Repr

/-- `EKS.NodegroupBase.base_load`: destructively extracts the shared fields;
`key_name`, `ami_id` and `user_data` are optional (default `None`), the
rest raise `KeyError` when absent. -/
def base_load (ng : RawDict) : Except PyError (BaseFields × RawDict) := do
  let (ssm_agent, ng) ← ng.pop "ssm_agent"
  let (disk_size, ng) ← ng.pop "disk_size"
  let (key_name, ng) := ng.popD "key_name" Value.none
  let (min_size, ng) ← ng.pop "min_size"
  let (max_size, ng) ← ng.pop "max_size"
  let (ami_id, ng) := ng.popD "ami_id" Value.none
  let (user_data, ng) := ng.popD "user_data" Value.none
  let (instance_types, ng) ← ng.pop "instance_types"
  let (labels, ng) ← ng.pop "labels"
  let (tags, ng) ← ng.pop "tags"
  return (⟨ssm_agent, disk_size, key_name, min_size, max_size, ami_id,
           user_data, instance_types, labels, tags⟩, ng)

/-- `EKS.ManagedNodegroup`: the shared fields plus `spot` and `desired_size`. -/
structure ManagedNodegroup extends BaseFields where
  spot : Value
  desired_size : Value
  deriving Repr

/-- `EKS.UnmanagedNodegroup`: the shared fields plus `gpu`,
`imdsv2_required`, `taints` and the parsed `ingress_ports`. -/
structure UnmanagedNodegroup extends BaseFields where
  gpu : Value
  imdsv2_required : Value
  taints : Value
  ingress_ports : List IngressRule
  deriving Repr

/-- `EKS.ManagedNodegroup.load`: base extraction, then `spot` and
`desired_size` (both required), then the leftover-key check. -/
def ManagedNodegroup.load (ng : RawDict) : Except PyError ManagedNodegroup := do
  let (base, ng) ← base_load ng
  let (spot, ng) ← ng.pop "spot"
  let (desired_size, ng) ← ng.pop "desired_size"
  let out : ManagedNodegroup := ⟨base, spot, desired_size⟩
  check_leavins "managed nodegroup attribute" "config.eks.unmanaged_nodegroups" ng
  return out

/-- `EKS.UnmanagedNodegroup.load`: base extraction, then `gpu` and
`imdsv2_required` (required), `taints` (defaults to `{}`) and
`ingress_ports` (required, parsed by `IngressRule.load_rules`), then the
leftover-key check. -/
def UnmanagedNodegroup.load (ng : RawDict) : Except PyError UnmanagedNodegroup := do
  let (base, ng) ← base_load ng
  let (gpu, ng) ← ng.pop "gpu"
  let (imdsv2_required, ng) ← ng.pop "imdsv2_required"
  let (taints, ng) := ng.popD "taints" (Value.dict [])
  let (ingress_raw, ng) ← ng.pop "ingress_ports"
  let out : UnmanagedNodegroup :=
    ⟨base, gpu, imdsv2_required, taints, IngressRule.load_rules ingress_raw⟩
  check_leavins "unmanaged nodegroup attribute" "config.eks.unmanaged_nodegroups" ng
  return out

end EKS

/-- The `EKS` dataclass fields: cluster-wide settings (untyped values, as
popped from the raw mapping) plus the two insertion-ordered nodegroup
mappings. -/
structure EKS where
  version : Value
  control_plane_access_cidrs : Value
  private_api : Value
  max_nodegroup_azs : Value
  global_node_labels : Value
  global_node_tags : Value
  secrets_encryption_key_arn : Value
  managed_nodegroups : List (String × EKS.ManagedNodegroup)
  unmanaged_nodegroups : List (String × EKS.UnmanagedNodegroup)
  deriving Repr

namespace EKS

/-- The error-name prefix `__post_init__` uses for a managed nodegroup:
`f"Managed nodegroup [{name}]"`. -/
def managedErrorName (name : String) : String := "Managed nodegroup [" ++ name ++ "]"

/-- The error-name prefix `__post_init__` uses for an unmanaged nodegroup:
`f"Unmanaged nodegroup [{name}]"`. -/
def unmanagedErrorName (name : String) : String :=
  "Unmanaged nodegroup [" ++ name ++ "]"

/-- `f"{ng_name}: User data must be provided when specifying a custom AMI"`. -/
def amiUserDataMsg (ng_name : String) : String :=
  ng_name ++ ": User data must be provided when specifying a custom AMI"

/-- `f"{ng_name}: ssm_agent, labels and taints cannot be automatically
configured when specifying a custom AMI. ..."`. -/
def amiIncompatibleMsg (ng_name : String) : String :=
  ng_name ++ ": ssm_agent, labels and taints cannot be automatically configured when specifying a custom AMI. You need to configure all of this using user_data."

/-- `f"Error: {error_name} has min_size of 0. Only unmanaged nodegroups
support min_size of 0."`. -/
def minSizeZeroMsg (error_name : String) : String :=
  "Error: " ++ error_name ++ " has min_size of 0. Only unmanaged nodegroups support min_size of 0."

/-- The single-quote character (code 39), used in the access-mode message. -/
def singleQuote : String := String.mk [Char.ofNat 39]

/-- The message `Cannot use ... with ...` naming the two mutually exclusive
access-mode fields, each wrapped in single quotes as in the source. -/
def accessCidrsPrivateApiMsg : String :=
  "Cannot use " ++ singleQuote ++ "control_plane_access_cidrs" ++ singleQuote ++
    " with " ++ singleQuote ++ "private_api" ++ singleQuote

/-- The inner `check_ami_exceptions` of `EKS.__post_init__`: the error
messages it appends for one nodegroup (`incompatible_options` is the
truthiness of the `or`-chain the callers pass). -/
def check_ami_exceptions (ng_name : String) (ami_id user_data : Value)
    (incompatible_options : Bool) : List String :=
  (if ami_id.truthy ∧ ¬user_data.truthy then [amiUserDataMsg ng_name] else []) ++
  (if ami_id.truthy ∧ incompatible_options then [amiIncompatibleMsg ng_name] else [])

/-- The errors the managed-nodegroup loop of `__post_init__` appends for
one entry: the AMI checks and the scale-to-zero check. -/
def managedNgErrors (p : String × ManagedNodegroup) : List String :=
  check_ami_exceptions (managedErrorName p.1) p.2.ami_id p.2.user_data
    (p.2.ssm_agent.truthy || p.2.labels.truthy) ++
  (if p.2.min_size.pyEqZero then [minSizeZeroMsg (managedErrorName p.1)] else [])

/-- The errors the unmanaged-nodegroup loop of `__post_init__` appends for
one entry: the AMI checks, with `taints` among the incompatible options. -/
def unmanagedNgErrors (p : String × UnmanagedNodegroup) : List String :=
  check_ami_exceptions (unmanagedErrorName p.1) p.2.ami_id p.2.user_data
    (p.2.ssm_agent.truthy || p.2.labels.truthy || p.2.taints.truthy)

/-- The error-list accumulation of `EKS.__post_init__`: every managed
nodegroup's checks, every unmanaged nodegroup's checks, then the
control-plane access-mode check. -/
def postInitErrors (e : EKS) : List String :=
  e.managed_nodegroups.flatMap managedNgErrors ++
  e.unmanaged_nodegroups.flatMap unmanagedNgErrors ++
  (if e.control_plane_access_cidrs.truthy ∧ e.private_api.truthy then
    [accessCidrsPrivateApiMsg]
  else [])

/-- Constructing an `EKS` in Python runs `__post_init__`, which raises
`ValueError(errors)` when the accumulated error list is non-empty; this is
the dataclass constructor together with that hook. -/
def init (e : EKS) : Except PyError EKS :=
  if e.postInitErrors.isEmpty then .ok e else .error (.valueError e.postInitErrors)

end EKS

/-- Python `.items()` on an embedded value: the entries when it is a
mapping, a `TypeError`-like failure otherwise. -/
def itemsOf (v : Value) : Except PyError (List (String × Value)) :=
  match v with
  | .dict d => .ok d
  | _ => .error (.typeError "items() on a non-mapping")

/-- A Python dict comprehension `{name: f(v) for name, v in entries}`:
entries are processed in order and the first failure aborts. -/
def mapEntries {α : Type} (f : Value → Except PyError α) :
    List (String × Value) → Except PyError (List (String × α))
  | [] => .ok []
  | (name, v) :: rest => do
    let a ← f v
    let tail ← mapEntries f rest
    return (name, a) :: tail

namespace EKS

/-- The inner `remap_mi` of `EKS.from_0_0_0`: on an unmanaged nodegroup,
force `imdsv2_required = False` and `ingress_ports = {}`; then pop the
`machine_image` sub-mapping (default `{}`) and merge it under the
nodegroup's own entries (`{**machine_image, **ng}`, so the nodegroup's
entries win on key clashes). -/
def remap_mi (unmanaged : Bool) (v : Value) : Except PyError RawDict :=
  match v with
  | Value.dict ng =>
    let ng := if unmanaged then
        RawDict.set (RawDict.set ng "imdsv2_required" (Value.bool false))
          "ingress_ports" (Value.dict [])
      else ng
    let (mi, ng) := RawDict.popD ng "machine_image" (Value.dict [])
    match mi with
    | Value.dict m => .ok (RawDict.merge m ng)
    | _ => .error (.typeError "machine_image is not a mapping")
  | _ => .error (.typeError "nodegroup entry is not a mapping")

/-- One managed entry of a nodegroup dict comprehension:
`EKS.ManagedNodegroup.load(ng)` (the entry must be a mapping). -/
def loadManagedEntry (v : Value) : Except PyError ManagedNodegroup :=
  match v with
  | Value.dict d => ManagedNodegroup.load d
  | _ => .error (.typeError "nodegroup entry is not a mapping")

/-- One unmanaged entry of a nodegroup dict comprehension:
`EKS.UnmanagedNodegroup.load(ng)` (the entry must be a mapping). -/
def loadUnmanagedEntry (v : Value) : Except PyError UnmanagedNodegroup :=
  match v with
  | Value.dict d => UnmanagedNodegroup.load d
  | _ => .error (.typeError "nodegroup entry is not a mapping")

/-- `EKS.from_0_0_0`: migrate the oldest schema. `control_plane_access_cidrs`
is the literal `[]` and `secrets_encryption_key_arn` the literal `None`;
unmanaged nodegroups are keyed under `nodegroups`; every nodegroup goes
through `remap_mi` before its loader; leftover top-level keys are checked
by `from_loader` after construction. -/
def from_0_0_0 (c : RawDict) : Except PyError EKS := do
  let (version, c) ← c.pop "version"
  let (private_api, c) ← c.pop "private_api"
  let (max_nodegroup_azs, c) ← c.pop "max_nodegroup_azs"
  let (global_node_labels, c) ← c.pop "global_node_labels"
  let (global_node_tags, c) ← c.pop "global_node_tags"
  let (mngsRaw, c) := c.popD "managed_nodegroups" (Value.dict [])
  let mitems ← itemsOf mngsRaw
  let managed ← mapEntries (fun v => do ManagedNodegroup.load (← remap_mi false v)) mitems
  let (ungsRaw, c) := c.popD "nodegroups" (Value.dict [])
  let uitems ← itemsOf ungsRaw
  let unmanaged ← mapEntries (fun v => do UnmanagedNodegroup.load (← remap_mi true v)) uitems
  let e ← EKS.init ⟨version, Value.list [], private_api, max_nodegroup_azs,
                    global_node_labels, global_node_tags, Value.none, managed, unmanaged⟩
  from_loader "config.eks" e c

/-- `EKS.from_0_0_1`: load the current schema. `secrets_encryption_key_arn`
defaults to `None` and the two nodegroup mappings default to `{}`; all
other top-level keys are required; leftover top-level keys are checked by
`from_loader` after construction. -/
def from_0_0_1 (c : RawDict) : Except PyError EKS := do
  let (version, c) ← c.pop "version"
  let (control_plane_access_cidrs, c) ← c.pop "control_plane_access_cidrs"
  let (private_api, c) ← c.pop "private_api"
  let (secrets_encryption_key_arn, c) := c.popD "secrets_encryption_key_arn" Value.none
  let (max_nodegroup_azs, c) ← c.pop "max_nodegroup_azs"
  let (global_node_labels, c) ← c.pop "global_node_labels"
  let (global_node_tags, c) ← c.pop "global_node_tags"
  let (mngsRaw, c) := c.popD "managed_nodegroups" (Value.dict [])
  let mitems ← itemsOf mngsRaw
  let managed ← mapEntries loadManagedEntry mitems
  let (ungsRaw, c) := c.popD "unmanaged_nodegroups" (Value.dict [])
  let uitems ← itemsOf ungsRaw
  let unmanaged ← mapEntries loadUnmanagedEntry uitems
  let e ← EKS.init ⟨version, control_plane_access_cidrs, private_api, max_nodegroup_azs,
                    global_node_labels, global_node_tags, secrets_encryption_key_arn,
                    managed, unmanaged⟩
  from_loader "config.eks" e c

end EKS

/-! ### Basic lemmas about the raw-mapping operations -/

namespace RawDict

theorem mem_keys_iff {d : RawDict} {k : String} :
    k ∈ keys d ↔ ∃ p ∈ d, p.1 = k := by
  simp [keys, List.mem_map]

theorem find_isSome_iff_mem {d : RawDict} {k : String} :
    (find d k).isSome ↔ k ∈ keys d := by
  rw [mem_keys_iff]
  unfold find
  cases hf : d.find? (fun p => p.1 = k) with
  | none =>
    refine iff_of_false (by simp) ?_
    rintro ⟨p, hp, hpk⟩
    have := List.find?_eq_none.1 hf p hp
    simp [hpk] at this
  | some p =>
    refine iff_of_true (by simp) ?_
    refine ⟨p, List.mem_of_find?_eq_some hf, ?_⟩
    have := List.find?_some hf
    simpa using this

theorem find_eq_none_of_not_mem {d : RawDict} {k : String} (h : k ∉ keys d) :
    find d k = Option.none := by
  cases hf : find d k with
  | none => rfl
  | some v =>
    exact absurd (find_isSome_iff_mem.1 (by simp [hf])) h

theorem find_cons_of_key {p : String × Value} {d : RawDict} {k : String}
    (h : p.1 = k) : find (p :: d) k = some p.2 := by
  unfold find
  rw [List.find?_cons_of_pos _ (by simpa using h)]
  rfl

theorem find_cons_of_ne {p : String × Value} {d : RawDict} {k : String}
    (h : ¬p.1 = k) : find (p :: d) k = find d k := by
  unfold find
  rw [List.find?_cons_of_neg _ (by simpa using h)]

theorem removeKey_cons_of_key {p : String × Value} {d : RawDict} {k : String}
    (h : p.1 = k) : removeKey (p :: d) k = removeKey d k := by
  unfold removeKey
  rw [List.filter_cons_of_neg (by simpa using h)]

theorem removeKey_cons_of_ne {p : String × Value} {d : RawDict} {k : String}
    (h : ¬p.1 = k) : removeKey (p :: d) k = p :: removeKey d k := by
  unfold removeKey
  rw [List.filter_cons_of_pos (by simpa using h)]

theorem removeKey_eq_self {d : RawDict} {k : String} (h : k ∉ keys d) :
    removeKey d k = d := by
  unfold removeKey
  refine List.filter_eq_self.2 fun p hp => ?_
  have : p.1 ≠ k := fun hc => h (mem_keys_iff.2 ⟨p, hp, hc⟩)
  simpa using this

theorem find_removeKey_ne {d : RawDict} {k j : String} (h : k ≠ j) :
    find (removeKey d j) k = find d k := by
  induction d with
  | nil => rfl
  | cons p rest ih =>
    by_cases hpj : p.1 = j
    · have hpk : ¬p.1 = k := fun hc => h (hc ▸ hpj : k = j)
      rw [removeKey_cons_of_key hpj, ih, find_cons_of_ne hpk]
    · by_cases hpk : p.1 = k
      · rw [removeKey_cons_of_ne hpj, find_cons_of_key hpk, find_cons_of_key hpk]
      · rw [removeKey_cons_of_ne hpj, find_cons_of_ne hpk, find_cons_of_ne hpk, ih]

theorem mem_keys_removeKey_iff {d : RawDict} {k j : String} :
    k ∈ keys (removeKey d j) ↔ k ∈ keys d ∧ k ≠ j := by
  unfold removeKey
  rw [mem_keys_iff, mem_keys_iff]
  constructor
  · rintro ⟨p, hp, hpk⟩
    have hmf := List.mem_filter.1 hp
    refine ⟨⟨p, hmf.1, hpk⟩, ?_⟩
    have h2 : p.1 ≠ j := by simpa using hmf.2
    exact hpk ▸ h2
  · rintro ⟨⟨p, hp, hpk⟩, hkj⟩
    refine ⟨p, List.mem_filter.2 ⟨hp, ?_⟩, hpk⟩
    have : p.1 ≠ j := fun hc => hkj (hpk.symm.trans hc)
    simpa using this

theorem pop_eq_ok_of_find {d : RawDict} {k : String} {v : Value}
    (h : find d k = some v) :
    pop d k = .ok (v, removeKey d k) := by
  unfold pop
  unfold find at h
  cases hf : d.find? (fun p => p.1 = k) with
  | none => rw [hf] at h; simp at h
  | some p =>
    rw [hf] at h
    simp only [Option.map_some', Option.some.injEq] at h
    subst h
    rfl

theorem pop_eq_error_of_find {d : RawDict} {k : String}
    (h : find d k = Option.none) :
    pop d k = .error (.keyError k) := by
  unfold pop
  unfold find at h
  cases hf : d.find? (fun p => p.1 = k) with
  | none => rfl
  | some p => rw [hf] at h; simp at h

theorem pop_ok_inv {d d' : RawDict} {k : String} {v : Value}
    (h : pop d k = .ok (v, d')) :
    find d k = some v ∧ d' = removeKey d k := by
  unfold pop at h
  cases hf : d.find? (fun p => p.1 = k) with
  | none => rw [hf] at h; exact absurd h (by simp)
  | some p =>
    rw [hf] at h
    simp only [Except.ok.injEq, Prod.mk.injEq] at h
    exact ⟨by simp [find, hf, h.1], h.2.symm⟩

theorem pop_error_inv {d : RawDict} {k : String} {e : PyError}
    (h : pop d k = .error e) :
    find d k = Option.none ∧ e = .keyError k := by
  unfold pop at h
  cases hf : d.find? (fun p => p.1 = k) with
  | none =>
    rw [hf] at h
    simp only [Except.error.injEq] at h
    exact ⟨by simp [find, hf], h.symm⟩
  | some p => rw [hf] at h; exact absurd h (by simp)

theorem popD_eq (d : RawDict) (k : String) (dv : Value) :
    popD d k dv = ((find d k).getD dv, removeKey d k) := by
  unfold popD
  cases hf : d.find? (fun p => p.1 = k) with
  | none =>
    have hn : find d k = Option.none := by simp [find, hf]
    have hmem : k ∉ keys d := fun hm => by
      have := find_isSome_iff_mem.2 hm
      rw [hn] at this
      simp at this
    rw [hn, removeKey_eq_self hmem]
    rfl
  | some p =>
    have : find d k = some p.2 := by simp [find, hf]
    rw [this]
    rfl

theorem find_setAll_of_mem {d : RawDict} {k : String} {v : Value}
    (h : k ∈ keys d) : find (setAll d k v) k = some v := by
  induction d with
  | nil => simp [keys] at h
  | cons p rest ih =>
    by_cases hpk : p.1 = k
    · unfold setAll
      rw [if_pos hpk]
      exact find_cons_of_key rfl
    · unfold setAll
      rw [if_neg hpk]
      have hrest : k ∈ keys rest := by
        rw [mem_keys_iff] at h ⊢
        obtain ⟨q, hq, hqk⟩ := h
        rcases List.mem_cons.1 hq with rfl | hq'
        · exact absurd hqk hpk
        · exact ⟨q, hq', hqk⟩
      rw [find_cons_of_ne hpk]
      exact ih hrest

theorem find_setAll_ne {d : RawDict} {k j : String} {v : Value}
    (h : k ≠ j) : find (setAll d j v) k = find d k := by
  induction d with
  | nil => rfl
  | cons p rest ih =>
    by_cases hpj : p.1 = j
    · unfold setAll
      rw [if_pos hpj]
      rw [find_cons_of_ne (show ¬((j, v) : String × Value).1 = k from fun hc => h hc.symm)]
      rw [find_cons_of_ne (show ¬p.1 = k from fun hc => h (hc.symm.trans hpj))]
      exact ih
    · unfold setAll
      rw [if_neg hpj]
      by_cases hpk : p.1 = k
      · rw [find_cons_of_key hpk, find_cons_of_key hpk]
      · rw [find_cons_of_ne hpk, find_cons_of_ne hpk, ih]

theorem keys_setAll (d : RawDict) (j : String) (v : Value) :
    keys (setAll d j v) = keys d := by
  induction d with
  | nil => rfl
  | cons p rest ih =>
    by_cases hpj : p.1 = j
    · unfold setAll
      rw [if_pos hpj]
      simp only [keys, List.map_cons] at ih ⊢
      rw [ih, hpj]
    · unfold setAll
      rw [if_neg hpj]
      simp only [keys, List.map_cons] at ih ⊢
      rw [ih]

theorem find_set_self (d : RawDict) (k : String) (v : Value) :
    find (set d k v) k = some v := by
  unfold set
  by_cases h : d.any (fun p => p.1 = k)
  · rw [if_pos h]
    refine find_setAll_of_mem ?_
    obtain ⟨p, hp, hpk⟩ := List.any_eq_true.1 h
    exact mem_keys_iff.2 ⟨p, hp, by simpa using hpk⟩
  · rw [if_neg h]
    have hmem : k ∉ keys d := fun hm => by
      obtain ⟨p, hp, hpk⟩ := mem_keys_iff.1 hm
      exact h (List.any_eq_true.2 ⟨p, hp, by simpa using hpk⟩)
    have hn : find d k = Option.none := find_eq_none_of_not_mem hmem
    unfold find at hn ⊢
    rw [List.find?_append]
    cases hf : d.find? (fun p => p.1 = k) with
    | some p => rw [hf] at hn; simp at hn
    | none =>
      simp only [Option.none_or]
      rw [List.find?_cons_of_pos _ (by simp)]
      rfl

theorem find_set_ne {k j : String} (h : k ≠ j) (d : RawDict) (v : Value) :
    find (set d j v) k = find d k := by
  unfold set
  by_cases hj : d.any (fun p => p.1 = j)
  · rw [if_pos hj]
    exact find_setAll_ne h
  · rw [if_neg hj]
    unfold find
    rw [List.find?_append]
    cases hf : d.find? (fun p => p.1 = k) with
    | some p => simp
    | none =>
      simp only [Option.none_or]
      rw [List.find?_cons_of_neg _ (by simpa using fun hc : j = k => h hc.symm)]
      rfl

theorem mem_keys_set_iff {d : RawDict} {k j : String} {v : Value} :
    k ∈ keys (set d j v) ↔ k ∈ keys d ∨ k = j := by
  unfold set
  by_cases hj : d.any (fun p => p.1 = j)
  · rw [if_pos hj, keys_setAll]
    constructor
    · exact Or.inl
    · rintro (h | rfl)
      · exact h
      · obtain ⟨p, hp, hpk⟩ := List.any_eq_true.1 hj
        exact mem_keys_iff.2 ⟨p, hp, by simpa using hpk⟩
  · rw [if_neg hj]
    simp only [keys, List.map_append, List.mem_append, List.map_cons,
      List.map_nil, List.mem_singleton]

theorem find_merge_not_mem {a b : RawDict} {k : String} (h : k ∉ keys b) :
    find (merge a b) k = find a k := by
  induction b generalizing a with
  | nil => rfl
  | cons p rest ih =>
    have hk1 : ¬p.1 = k := fun hc => h (mem_keys_iff.2 ⟨p, List.mem_cons_self p rest, hc⟩)
    have hk2 : k ∉ keys rest := fun hc => by
      obtain ⟨q, hq, hqk⟩ := mem_keys_iff.1 hc
      exact h (mem_keys_iff.2 ⟨q, List.mem_cons_of_mem p hq, hqk⟩)
    show find (merge (set a p.1 p.2) rest) k = find a k
    rw [ih hk2, find_set_ne (fun hc => hk1 hc.symm)]

theorem find_merge_all {a b : RawDict} {k : String} {v : Value}
    (hmem : k ∈ keys b) (hall : ∀ p ∈ b, p.1 = k → p.2 = v) :
    find (merge a b) k = some v := by
  induction b generalizing a with
  | nil => simp [keys] at hmem
  | cons p rest ih =>
    show find (merge (set a p.1 p.2) rest) k = some v
    by_cases hrest : k ∈ keys rest
    · exact ih hrest (fun q hq => hall q (List.mem_cons_of_mem p hq))
    · have hpk : p.1 = k := by
        obtain ⟨q, hq, hqk⟩ := mem_keys_iff.1 hmem
        rcases List.mem_cons.1 hq with rfl | hq'
        · exact hqk
        · exact absurd (mem_keys_iff.2 ⟨q, hq', hqk⟩) hrest
      have hv : p.2 = v := hall p (List.mem_cons_self p rest) hpk
      rw [find_merge_not_mem hrest, hpk, hv, find_set_self]

end RawDict

/-- `Except` bind returns `ok` exactly when both stages do. -/
theorem except_bind_ok {α β : Type} {x : Except PyError α} {f : α → Except PyError β} {b : β} :
    (x >>= f) = .ok b ↔ ∃ a, x = .ok a ∧ f a = .ok b := by
  cases x <;> simp [Bind.bind, Except.bind]

theorem okBind {α β : Type} (a : α) (f : α → Except PyError β) :
    (Except.ok a >>= f : Except PyError β) = f a := rfl

theorem errorBind {α β : Type} (e : PyError) (f : α → Except PyError β) :
    ((Except.error e : Except PyError α) >>= f) = Except.error e := rfl

theorem pureEq {α : Type} (a : α) : (pure a : Except PyError α) = Except.ok a := rfl

namespace RawDict

/-- Removal of several keys in sequence. -/
abbrev removeKeys (d : RawDict) (ks : List String) : RawDict :=
  ks.foldl removeKey d

theorem find_rm2 {d : RawDict} {k j1 j2 : String}
    (h1 : k ≠ j1) (h2 : k ≠ j2) :
    find (removeKey (removeKey d j1) j2) k = find d k :=
  (find_removeKey_ne h2).trans (find_removeKey_ne h1)

theorem find_rm3 {d : RawDict} {k j1 j2 j3 : String}
    (h1 : k ≠ j1) (h2 : k ≠ j2) (h3 : k ≠ j3) :
    find (removeKey (removeKey (removeKey d j1) j2) j3) k = find d k :=
  (find_removeKey_ne h3).trans (find_rm2 h1 h2)

theorem find_rm4 {d : RawDict} {k j1 j2 j3 j4 : String}
    (h1 : k ≠ j1) (h2 : k ≠ j2) (h3 : k ≠ j3) (h4 : k ≠ j4) :
    find (removeKey (removeKey (removeKey (removeKey d j1) j2) j3) j4) k = find d k :=
  (find_removeKey_ne h4).trans (find_rm3 h1 h2 h3)

theorem find_rm5 {d : RawDict} {k j1 j2 j3 j4 j5 : String}
    (h1 : k ≠ j1) (h2 : k ≠ j2) (h3 : k ≠ j3) (h4 : k ≠ j4) (h5 : k ≠ j5) :
    find (removeKey (removeKey (removeKey (removeKey (removeKey d j1) j2) j3) j4) j5) k
      = find d k :=
  (find_removeKey_ne h5).trans (find_rm4 h1 h2 h3 h4)

theorem find_rm6 {d : RawDict} {k j1 j2 j3 j4 j5 j6 : String}
    (h1 : k ≠ j1) (h2 : k ≠ j2) (h3 : k ≠ j3) (h4 : k ≠ j4) (h5 : k ≠ j5)
    (h6 : k ≠ j6) :
    find (removeKey (removeKey (removeKey (removeKey (removeKey (removeKey d j1) j2) j3)
      j4) j5) j6) k = find d k :=
  (find_removeKey_ne h6).trans (find_rm5 h1 h2 h3 h4 h5)

theorem find_rm7 {d : RawDict} {k j1 j2 j3 j4 j5 j6 j7 : String}
    (h1 : k ≠ j1) (h2 : k ≠ j2) (h3 : k ≠ j3) (h4 : k ≠ j4) (h5 : k ≠ j5)
    (h6 : k ≠ j6) (h7 : k ≠ j7) :
    find (removeKey (removeKey (removeKey (removeKey (removeKey (removeKey (removeKey d
      j1) j2) j3) j4) j5) j6) j7) k = find d k :=
  (find_removeKey_ne h7).trans (find_rm6 h1 h2 h3 h4 h5 h6)

theorem find_rm8 {d : RawDict} {k j1 j2 j3 j4 j5 j6 j7 j8 : String}
    (h1 : k ≠ j1) (h2 : k ≠ j2) (h3 : k ≠ j3) (h4 : k ≠ j4) (h5 : k ≠ j5)
    (h6 : k ≠ j6) (h7 : k ≠ j7) (h8 : k ≠ j8) :
    find (removeKey (removeKey (removeKey (removeKey (removeKey (removeKey (removeKey
      (removeKey d j1) j2) j3) j4) j5) j6) j7) j8) k = find d k :=
  (find_removeKey_ne h8).trans (find_rm7 h1 h2 h3 h4 h5 h6 h7)

theorem find_rm9 {d : RawDict} {k j1 j2 j3 j4 j5 j6 j7 j8 j9 : String}
    (h1 : k ≠ j1) (h2 : k ≠ j2) (h3 : k ≠ j3) (h4 : k ≠ j4) (h5 : k ≠ j5)
    (h6 : k ≠ j6) (h7 : k ≠ j7) (h8 : k ≠ j8) (h9 : k ≠ j9) :
    find (removeKey (removeKey (removeKey (removeKey (removeKey (removeKey (removeKey
      (removeKey (removeKey d j1) j2) j3) j4) j5) j6) j7) j8) j9) k = find d k :=
  (find_removeKey_ne h9).trans (find_rm8 h1 h2 h3 h4 h5 h6 h7 h8)

theorem find_rm10 {d : RawDict} {k j1 j2 j3 j4 j5 j6 j7 j8 j9 j10 : String}
    (h1 : k ≠ j1) (h2 : k ≠ j2) (h3 : k ≠ j3) (h4 : k ≠ j4) (h5 : k ≠ j5)
    (h6 : k ≠ j6) (h7 : k ≠ j7) (h8 : k ≠ j8) (h9 : k ≠ j9) (h10 : k ≠ j10) :
    find (removeKey (removeKey (removeKey (removeKey (removeKey (removeKey (removeKey
      (removeKey (removeKey (removeKey d j1) j2) j3) j4) j5) j6) j7) j8) j9) j10) k
      = find d k :=
  (find_removeKey_ne h10).trans (find_rm9 h1 h2 h3 h4 h5 h6 h7 h8 h9)

theorem find_rm11 {d : RawDict} {k j1 j2 j3 j4 j5 j6 j7 j8 j9 j10 j11 : String}
    (h1 : k ≠ j1) (h2 : k ≠ j2) (h3 : k ≠ j3) (h4 : k ≠ j4) (h5 : k ≠ j5)
    (h6 : k ≠ j6) (h7 : k ≠ j7) (h8 : k ≠ j8) (h9 : k ≠ j9) (h10 : k ≠ j10)
    (h11 : k ≠ j11) :
    find (removeKey (removeKey (removeKey (removeKey (removeKey (removeKey (removeKey
      (removeKey (removeKey (removeKey (removeKey d j1) j2) j3) j4) j5) j6) j7) j8) j9)
      j10) j11) k = find d k :=
  (find_removeKey_ne h11).trans (find_rm10 h1 h2 h3 h4 h5 h6 h7 h8 h9 h10)

theorem find_rm12 {d : RawDict} {k j1 j2 j3 j4 j5 j6 j7 j8 j9 j10 j11 j12 : String}
    (h1 : k ≠ j1) (h2 : k ≠ j2) (h3 : k ≠ j3) (h4 : k ≠ j4) (h5 : k ≠ j5)
    (h6 : k ≠ j6) (h7 : k ≠ j7) (h8 : k ≠ j8) (h9 : k ≠ j9) (h10 : k ≠ j10)
    (h11 : k ≠ j11) (h12 : k ≠ j12) :
    find (removeKey (removeKey (removeKey (removeKey (removeKey (removeKey (removeKey
      (removeKey (removeKey (removeKey (removeKey (removeKey d j1) j2) j3) j4) j5) j6)
      j7) j8) j9) j10) j11) j12) k = find d k :=
  (find_removeKey_ne h12).trans (find_rm11 h1 h2 h3 h4 h5 h6 h7 h8 h9 h10 h11)

theorem find_rm13 {d : RawDict} {k j1 j2 j3 j4 j5 j6 j7 j8 j9 j10 j11 j12 j13 : String}
    (h1 : k ≠ j1) (h2 : k ≠ j2) (h3 : k ≠ j3) (h4 : k ≠ j4) (h5 : k ≠ j5)
    (h6 : k ≠ j6) (h7 : k ≠ j7) (h8 : k ≠ j8) (h9 : k ≠ j9) (h10 : k ≠ j10)
    (h11 : k ≠ j11) (h12 : k ≠ j12) (h13 : k ≠ j13) :
    find (removeKey (removeKey (removeKey (removeKey (removeKey (removeKey (removeKey
      (removeKey (removeKey (removeKey (removeKey (removeKey (removeKey d j1) j2) j3)
      j4) j5) j6) j7) j8) j9) j10) j11) j12) j13) k = find d k :=
  (find_removeKey_ne h13).trans (find_rm12 h1 h2 h3 h4 h5 h6 h7 h8 h9 h10 h11 h12)

end RawDict

namespace EKS

/-- The keys `base_load` consumes, in extraction order. -/
def baseKeys : List String :=
  ["ssm_agent", "disk_size", "key_name", "min_size", "max_size", "ami_id",
   "user_data", "instance_types", "labels", "tags"]

/-- The keys `base_load` requires (no default). -/
def baseRequiredKeys : List String :=
  ["ssm_agent", "disk_size", "min_size", "max_size", "instance_types", "labels", "tags"]

/-- The keys `ManagedNodegroup.load` recognizes (consumes), in order. -/
def managedKeys : List String := baseKeys ++ ["spot", "desired_size"]

/-- The keys `ManagedNodegroup.load` requires. -/
def managedRequiredKeys : List String := baseRequiredKeys ++ ["spot", "desired_size"]

/-- The keys `UnmanagedNodegroup.load` recognizes (consumes), in order. -/
def unmanagedKeys : List String :=
  baseKeys ++ ["gpu", "imdsv2_required", "taints", "ingress_ports"]

/-- The keys `UnmanagedNodegroup.load` requires. -/
def unmanagedRequiredKeys : List String :=
  baseRequiredKeys ++ ["gpu", "imdsv2_required", "ingress_ports"]

/-- The record `base_load` builds, each field read off the input mapping
(optional fields default to `None`). -/
def baseOf (d : RawDict) : BaseFields :=
  ⟨(RawDict.find d "ssm_agent").getD Value.none,
   (RawDict.find d "disk_size").getD Value.none,
   (RawDict.find d "key_name").getD Value.none,
   (RawDict.find d "min_size").getD Value.none,
   (RawDict.find d "max_size").getD Value.none,
   (RawDict.find d "ami_id").getD Value.none,
   (RawDict.find d "user_data").getD Value.none,
   (RawDict.find d "instance_types").getD Value.none,
   (RawDict.find d "labels").getD Value.none,
   (RawDict.find d "tags").getD Value.none⟩

/-- The record `ManagedNodegroup.load` builds on success. -/
def managedOf (d : RawDict) : ManagedNodegroup :=
  ⟨baseOf d, (RawDict.find d "spot").getD Value.none,
   (RawDict.find d "desired_size").getD Value.none⟩

/-- The record `UnmanagedNodegroup.load` builds on success. -/
def unmanagedOf (d : RawDict) : UnmanagedNodegroup :=
  ⟨baseOf d, (RawDict.find d "gpu").getD Value.none,
   (RawDict.find d "imdsv2_required").getD Value.none,
   (RawDict.find d "taints").getD (Value.dict []),
   IngressRule.load_rules ((RawDict.find d "ingress_ports").getD Value.none)⟩

/-- When the required base keys are present, `base_load` succeeds, builds
`baseOf` and leaves the mapping stripped of the ten base keys. -/
theorem base_load_eq {d : RawDict}
    (hreq : ∀ r ∈ baseRequiredKeys, r ∈ RawDict.keys d) :
    base_load d = .ok (baseOf d, RawDict.removeKeys d baseKeys) := by
  obtain ⟨v1, f1⟩ := Option.isSome_iff_exists.1
    (RawDict.find_isSome_iff_mem.2 (hreq "ssm_agent" (by decide)))
  obtain ⟨v2, g2⟩ := Option.isSome_iff_exists.1
    (RawDict.find_isSome_iff_mem.2 (hreq "disk_size" (by decide)))
  obtain ⟨v4, g4⟩ := Option.isSome_iff_exists.1
    (RawDict.find_isSome_iff_mem.2 (hreq "min_size" (by decide)))
  obtain ⟨v5, g5⟩ := Option.isSome_iff_exists.1
    (RawDict.find_isSome_iff_mem.2 (hreq "max_size" (by decide)))
  obtain ⟨v8, g8⟩ := Option.isSome_iff_exists.1
    (RawDict.find_isSome_iff_mem.2 (hreq "instance_types" (by decide)))
  obtain ⟨v9, g9⟩ := Option.isSome_iff_exists.1
    (RawDict.find_isSome_iff_mem.2 (hreq "labels" (by decide)))
  obtain ⟨v10, g10⟩ := Option.isSome_iff_exists.1
    (RawDict.find_isSome_iff_mem.2 (hreq "tags" (by decide)))
  have f2 : RawDict.find (RawDict.removeKey d "ssm_agent") "disk_size" = some v2 :=
    (RawDict.find_removeKey_ne (by decide)).trans g2
  have c3 : RawDict.find (RawDict.removeKey (RawDict.removeKey d "ssm_agent")
      "disk_size") "key_name" = RawDict.find d "key_name" :=
    RawDict.find_rm2 (by decide) (by decide)
  have f4 : RawDict.find (RawDict.removeKey (RawDict.removeKey (RawDict.removeKey d
      "ssm_agent") "disk_size") "key_name") "min_size" = some v4 :=
    (RawDict.find_rm3 (by decide) (by decide) (by decide)).trans g4
  have f5 : RawDict.find (RawDict.removeKey (RawDict.removeKey (RawDict.removeKey
      (RawDict.removeKey d "ssm_agent") "disk_size") "key_name") "min_size")
      "max_size" = some v5 :=
    (RawDict.find_rm4 (by decide) (by decide) (by decide) (by decide)).trans g5
  have c6 : RawDict.find (RawDict.removeKey (RawDict.removeKey (RawDict.removeKey
      (RawDict.removeKey (RawDict.removeKey d "ssm_agent") "disk_size") "key_name")
      "min_size") "max_size") "ami_id" = RawDict.find d "ami_id" :=
    RawDict.find_rm5 (by decide) (by decide) (by decide) (by decide) (by decide)
  have c7 : RawDict.find (RawDict.removeKey (RawDict.removeKey (RawDict.removeKey
      (RawDict.removeKey (RawDict.removeKey (RawDict.removeKey d "ssm_agent")
      "disk_size") "key_name") "min_size") "max_size") "ami_id") "user_data"
      = RawDict.find d "user_data" :=
    RawDict.find_rm6 (by decide) (by decide) (by decide) (by decide) (by decide)
      (by decide)
  have f8 : RawDict.find (RawDict.removeKey (RawDict.removeKey (RawDict.removeKey
      (RawDict.removeKey (RawDict.removeKey (RawDict.removeKey (RawDict.removeKey d
      "ssm_agent") "disk_size") "key_name") "min_size") "max_size") "ami_id")
      "user_data") "instance_types" = some v8 :=
    (RawDict.find_rm7 (by decide) (by decide) (by decide) (by decide) (by decide)
      (by decide) (by decide)).trans g8
  have f9 : RawDict.find (RawDict.removeKey (RawDict.removeKey (RawDict.removeKey
      (RawDict.removeKey (RawDict.removeKey (RawDict.removeKey (RawDict.removeKey
      (RawDict.removeKey d "ssm_agent") "disk_size") "key_name") "min_size")
      "max_size") "ami_id") "user_data") "instance_types") "labels" = some v9 :=
    (RawDict.find_rm8 (by decide) (by decide) (by decide) (by decide) (by decide)
      (by decide) (by decide) (by decide)).trans g9
  have f10 : RawDict.find (RawDict.removeKey (RawDict.removeKey (RawDict.removeKey
      (RawDict.removeKey (RawDict.removeKey (RawDict.removeKey (RawDict.removeKey
      (RawDict.removeKey (RawDict.removeKey d "ssm_agent") "disk_size") "key_name")
      "min_size") "max_size") "ami_id") "user_data") "instance_types") "labels")
      "tags" = some v10 :=
    (RawDict.find_rm9 (by decide) (by decide) (by decide) (by decide) (by decide)
      (by decide) (by decide) (by decide) (by decide)).trans g10
  simp only [base_load, RawDict.popD_eq,
    RawDict.pop_eq_ok_of_find f1, RawDict.pop_eq_ok_of_find f2,
    RawDict.pop_eq_ok_of_find f4, RawDict.pop_eq_ok_of_find f5,
    RawDict.pop_eq_ok_of_find f8, RawDict.pop_eq_ok_of_find f9,
    RawDict.pop_eq_ok_of_find f10, c3, c6, c7, okBind, pureEq,
    baseOf, baseKeys, RawDict.removeKeys, List.foldl_cons, List.foldl_nil,
    f1, g2, g4, g5, g8, g9, g10, Option.getD_some]

/-- When the required managed keys are present, `ManagedNodegroup.load`
builds `managedOf` and runs the leftover-key check on the mapping stripped
of all recognized managed keys. -/
theorem managed_load_eq {d : RawDict}
    (hreq : ∀ r ∈ managedRequiredKeys, r ∈ RawDict.keys d) :
    ManagedNodegroup.load d =
      check_leavins "managed nodegroup attribute" "config.eks.unmanaged_nodegroups"
        (RawDict.removeKeys d managedKeys) >>= fun _ => .ok (managedOf d) := by
  have hb : ∀ r ∈ baseRequiredKeys, r ∈ RawDict.keys d := fun r hr =>
    hreq r (by unfold managedRequiredKeys; exact List.mem_append.2 (Or.inl hr))
  obtain ⟨v11, g11⟩ := Option.isSome_iff_exists.1
    (RawDict.find_isSome_iff_mem.2 (hreq "spot" (by decide)))
  obtain ⟨v12, g12⟩ := Option.isSome_iff_exists.1
    (RawDict.find_isSome_iff_mem.2 (hreq "desired_size" (by decide)))
  have f11 : RawDict.find (RawDict.removeKey (RawDict.removeKey (RawDict.removeKey
      (RawDict.removeKey (RawDict.removeKey (RawDict.removeKey (RawDict.removeKey
      (RawDict.removeKey (RawDict.removeKey (RawDict.removeKey d "ssm_agent")
      "disk_size") "key_name") "min_size") "max_size") "ami_id") "user_data")
      "instance_types") "labels") "tags") "spot" = some v11 :=
    (RawDict.find_rm10 (by decide) (by decide) (by decide) (by decide) (by decide)
      (by decide) (by decide) (by decide) (by decide) (by decide)).trans g11
  have f12 : RawDict.find (RawDict.removeKey (RawDict.removeKey (RawDict.removeKey
      (RawDict.removeKey (RawDict.removeKey (RawDict.removeKey (RawDict.removeKey
      (RawDict.removeKey (RawDict.removeKey (RawDict.removeKey (RawDict.removeKey d
      "ssm_agent") "disk_size") "key_name") "min_size") "max_size") "ami_id")
      "user_data") "instance_types") "labels") "tags") "spot") "desired_size"
      = some v12 :=
    (RawDict.find_rm11 (by decide) (by decide) (by decide) (by decide) (by decide)
      (by decide) (by decide) (by decide) (by decide) (by decide) (by decide)).trans g12
  simp only [ManagedNodegroup.load, base_load_eq hb, okBind, pureEq,
    RawDict.pop_eq_ok_of_find f11, RawDict.pop_eq_ok_of_find f12,
    managedOf, managedKeys, baseKeys, RawDict.removeKeys,
    List.foldl_cons, List.foldl_nil, List.cons_append, List.nil_append,
    g11, g12, Option.getD_some]

/-- When the required unmanaged keys are present, `UnmanagedNodegroup.load`
builds `unmanagedOf` and runs the leftover-key check on the mapping
stripped of all recognized unmanaged keys. -/
theorem unmanaged_load_eq {d : RawDict}
    (hreq : ∀ r ∈ unmanagedRequiredKeys, r ∈ RawDict.keys d) :
    UnmanagedNodegroup.load d =
      check_leavins "unmanaged nodegroup attribute" "config.eks.unmanaged_nodegroups"
        (RawDict.removeKeys d unmanagedKeys) >>= fun _ => .ok (unmanagedOf d) := by
  have hb : ∀ r ∈ baseRequiredKeys, r ∈ RawDict.keys d := fun r hr =>
    hreq r (by unfold unmanagedRequiredKeys; exact List.mem_append.2 (Or.inl hr))
  obtain ⟨v11, g11⟩ := Option.isSome_iff_exists.1
    (RawDict.find_isSome_iff_mem.2 (hreq "gpu" (by decide)))
  obtain ⟨v12, g12⟩ := Option.isSome_iff_exists.1
    (RawDict.find_isSome_iff_mem.2 (hreq "imdsv2_required" (by decide)))
  obtain ⟨v14, g14⟩ := Option.isSome_iff_exists.1
    (RawDict.find_isSome_iff_mem.2 (hreq "ingress_ports" (by decide)))
  have f11 : RawDict.find (RawDict.removeKey (RawDict.removeKey (RawDict.removeKey
      (RawDict.removeKey (RawDict.removeKey (RawDict.removeKey (RawDict.removeKey
      (RawDict.removeKey (RawDict.removeKey (RawDict.removeKey d "ssm_agent")
      "disk_size") "key_name") "min_size") "max_size") "ami_id") "user_data")
      "instance_types") "labels") "tags") "gpu" = some v11 :=
    (RawDict.find_rm10 (by decide) (by decide) (by decide) (by decide) (by decide)
      (by decide) (by decide) (by decide) (by decide) (by decide)).trans g11
  have f12 : RawDict.find (RawDict.removeKey (RawDict.removeKey (RawDict.removeKey
      (RawDict.removeKey (RawDict.removeKey (RawDict.removeKey (RawDict.removeKey
      (RawDict.removeKey (RawDict.removeKey (RawDict.removeKey (RawDict.removeKey d
      "ssm_agent") "disk_size") "key_name") "min_size") "max_size") "ami_id")
      "user_data") "instance_types") "labels") "tags") "gpu") "imdsv2_required"
      = some v12 :=
    (RawDict.find_rm11 (by decide) (by decide) (by decide) (by decide) (by decide)
      (by decide) (by decide) (by decide) (by decide) (by decide) (by decide)).trans g12
  have c13 : RawDict.find (RawDict.removeKey (RawDict.removeKey (RawDict.removeKey
      (RawDict.removeKey (RawDict.removeKey (RawDict.removeKey (RawDict.removeKey
      (RawDict.removeKey (RawDict.removeKey (RawDict.removeKey (RawDict.removeKey
      (RawDict.removeKey d "ssm_agent") "disk_size") "key_name") "min_size")
      "max_size") "ami_id") "user_data") "instance_types") "labels") "tags") "gpu")
      "imdsv2_required") "taints" = RawDict.find d "taints" :=
    RawDict.find_rm12 (by decide) (by decide) (by decide) (by decide) (by decide)
      (by decide) (by decide) (by decide) (by decide) (by decide) (by decide)
      (by decide)
  have f14 : RawDict.find (RawDict.removeKey (RawDict.removeKey (RawDict.removeKey
      (RawDict.removeKey (RawDict.removeKey (RawDict.removeKey (RawDict.removeKey
      (RawDict.removeKey (RawDict.removeKey (RawDict.removeKey (RawDict.removeKey
      (RawDict.removeKey (RawDict.removeKey d "ssm_agent") "disk_size") "key_name")
      "min_size") "max_size") "ami_id") "user_data") "instance_types") "labels")
      "tags") "gpu") "imdsv2_required") "taints") "ingress_ports" = some v14 :=
    (RawDict.find_rm13 (by decide) (by decide) (by decide) (by decide) (by decide)
      (by decide) (by decide) (by decide) (by decide) (by decide) (by decide)
      (by decide) (by decide)).trans g14
  simp only [UnmanagedNodegroup.load, base_load_eq hb, okBind, pureEq,
    RawDict.popD_eq, RawDict.pop_eq_ok_of_find f11, RawDict.pop_eq_ok_of_find f12,
    RawDict.pop_eq_ok_of_find f14, c13,
    unmanagedOf, unmanagedKeys, baseKeys, RawDict.removeKeys,
    List.foldl_cons, List.foldl_nil, List.cons_append, List.nil_append,
    g11, g12, g14, Option.getD_some]

/-- Either every required managed key is present, or `ManagedNodegroup.load`
fails with a `KeyError` (the first missing required key, in pop order). -/
theorem managed_load_req_or_err (d : RawDict) :
    (∀ r ∈ managedRequiredKeys, r ∈ RawDict.keys d) ∨
      ∃ k, ManagedNodegroup.load d = .error (.keyError k) := by
  by_cases m1 : "ssm_agent" ∈ RawDict.keys d
  · obtain ⟨v1, f1⟩ := Option.isSome_iff_exists.1 (RawDict.find_isSome_iff_mem.2 m1)
    by_cases m2 : "disk_size" ∈ RawDict.keys d
    · obtain ⟨v2, g2⟩ := Option.isSome_iff_exists.1 (RawDict.find_isSome_iff_mem.2 m2)
      have f2 : RawDict.find (RawDict.removeKey d "ssm_agent") "disk_size" = some v2 :=
        (RawDict.find_removeKey_ne (by decide)).trans g2
      by_cases m4 : "min_size" ∈ RawDict.keys d
      · obtain ⟨v4, g4⟩ := Option.isSome_iff_exists.1 (RawDict.find_isSome_iff_mem.2 m4)
        have f4 : RawDict.find (RawDict.removeKey (RawDict.removeKey (RawDict.removeKey
            d "ssm_agent") "disk_size") "key_name") "min_size" = some v4 :=
          (RawDict.find_rm3 (by decide) (by decide) (by decide)).trans g4
        by_cases m5 : "max_size" ∈ RawDict.keys d
        · obtain ⟨v5, g5⟩ := Option.isSome_iff_exists.1 (RawDict.find_isSome_iff_mem.2 m5)
          have f5 : RawDict.find (RawDict.removeKey (RawDict.removeKey
              (RawDict.removeKey (RawDict.removeKey d "ssm_agent") "disk_size")
              "key_name") "min_size") "max_size" = some v5 :=
            (RawDict.find_rm4 (by decide) (by decide) (by decide) (by decide)).trans g5
          by_cases m8 : "instance_types" ∈ RawDict.keys d
          · obtain ⟨v8, g8⟩ := Option.isSome_iff_exists.1
              (RawDict.find_isSome_iff_mem.2 m8)
            have f8 : RawDict.find (RawDict.removeKey (RawDict.removeKey
                (RawDict.removeKey (RawDict.removeKey (RawDict.removeKey
                (RawDict.removeKey (RawDict.removeKey d "ssm_agent") "disk_size")
                "key_name") "min_size") "max_size") "ami_id") "user_data")
                "instance_types" = some v8 :=
              (RawDict.find_rm7 (by decide) (by decide) (by decide) (by decide)
                (by decide) (by decide) (by decide)).trans g8
            by_cases m9 : "labels" ∈ RawDict.keys d
            · obtain ⟨v9, g9⟩ := Option.isSome_iff_exists.1
                (RawDict.find_isSome_iff_mem.2 m9)
              have f9 : RawDict.find (RawDict.removeKey (RawDict.removeKey
                  (RawDict.removeKey (RawDict.removeKey (RawDict.removeKey
                  (RawDict.removeKey (RawDict.removeKey (RawDict.removeKey d
                  "ssm_agent") "disk_size") "key_name") "min_size") "max_size")
                  "ami_id") "user_data") "instance_types") "labels" = some v9 :=
                (RawDict.find_rm8 (by decide) (by decide) (by decide) (by decide)
                  (by decide) (by decide) (by decide) (by decide)).trans g9
              by_cases m10 : "tags" ∈ RawDict.keys d
              · obtain ⟨v10, g10⟩ := Option.isSome_iff_exists.1
                  (RawDict.find_isSome_iff_mem.2 m10)
                have f10 : RawDict.find (RawDict.removeKey (RawDict.removeKey
                    (RawDict.removeKey (RawDict.removeKey (RawDict.removeKey
                    (RawDict.removeKey (RawDict.removeKey (RawDict.removeKey
                    (RawDict.removeKey d "ssm_agent") "disk_size") "key_name")
                    "min_size") "max_size") "ami_id") "user_data") "instance_types")
                    "labels") "tags" = some v10 :=
                  (RawDict.find_rm9 (by decide) (by decide) (by decide) (by decide)
                    (by decide) (by decide) (by decide) (by decide) (by decide)).trans
                    g10
                by_cases m11 : "spot" ∈ RawDict.keys d
                · obtain ⟨v11, g11⟩ := Option.isSome_iff_exists.1
                    (RawDict.find_isSome_iff_mem.2 m11)
                  have f11 : RawDict.find (RawDict.removeKey (RawDict.removeKey
                      (RawDict.removeKey (RawDict.removeKey (RawDict.removeKey
                      (RawDict.removeKey (RawDict.removeKey (RawDict.removeKey
                      (RawDict.removeKey (RawDict.removeKey d "ssm_agent")
                      "disk_size") "key_name") "min_size") "max_size") "ami_id")
                      "user_data") "instance_types") "labels") "tags") "spot"
                      = some v11 :=
                    (RawDict.find_rm10 (by decide) (by decide) (by decide) (by decide)
                      (by decide) (by decide) (by decide) (by decide) (by decide)
                      (by decide)).trans g11
                  by_cases m12 : "desired_size" ∈ RawDict.keys d
                  · refine Or.inl fun r hr => ?_
                    rw [show managedRequiredKeys = ["ssm_agent", "disk_size",
                      "min_size", "max_size", "instance_types", "labels", "tags",
                      "spot", "desired_size"] from rfl] at hr
                    simp only [List.mem_cons, List.not_mem_nil, or_false] at hr
                    rcases hr with rfl | rfl | rfl | rfl | rfl | rfl | rfl | rfl
                      | rfl <;> assumption
                  · refine Or.inr ⟨"desired_size", ?_⟩
                    have e12 : RawDict.find (RawDict.removeKey (RawDict.removeKey
                        (RawDict.removeKey (RawDict.removeKey (RawDict.removeKey
                        (RawDict.removeKey (RawDict.removeKey (RawDict.removeKey
                        (RawDict.removeKey (RawDict.removeKey (RawDict.removeKey d
                        "ssm_agent") "disk_size") "key_name") "min_size") "max_size")
                        "ami_id") "user_data") "instance_types") "labels") "tags")
                        "spot") "desired_size" = Option.none :=
                      (RawDict.find_rm11 (by decide) (by decide) (by decide)
                        (by decide) (by decide) (by decide) (by decide) (by decide)
                        (by decide) (by decide) (by decide)).trans
                        (RawDict.find_eq_none_of_not_mem m12)
                    simp only [ManagedNodegroup.load, base_load, RawDict.popD_eq,
                      RawDict.pop_eq_ok_of_find f1, RawDict.pop_eq_ok_of_find f2,
                      RawDict.pop_eq_ok_of_find f4, RawDict.pop_eq_ok_of_find f5,
                      RawDict.pop_eq_ok_of_find f8, RawDict.pop_eq_ok_of_find f9,
                      RawDict.pop_eq_ok_of_find f10, RawDict.pop_eq_ok_of_find f11,
                      RawDict.pop_eq_error_of_find e12, okBind, errorBind, pureEq]
                · refine Or.inr ⟨"spot", ?_⟩
                  have e11 : RawDict.find (RawDict.removeKey (RawDict.removeKey
                      (RawDict.removeKey (RawDict.removeKey (RawDict.removeKey
                      (RawDict.removeKey (RawDict.removeKey (RawDict.removeKey
                      (RawDict.removeKey (RawDict.removeKey d "ssm_agent")
                      "disk_size") "key_name") "min_size") "max_size") "ami_id")
                      "user_data") "instance_types") "labels") "tags") "spot"
                      = Option.none :=
                    (RawDict.find_rm10 (by decide) (by decide) (by decide) (by decide)
                      (by decide) (by decide) (by decide) (by decide) (by decide)
                      (by decide)).trans (RawDict.find_eq_none_of_not_mem m11)
                  simp only [ManagedNodegroup.load, base_load, RawDict.popD_eq,
                    RawDict.pop_eq_ok_of_find f1, RawDict.pop_eq_ok_of_find f2,
                    RawDict.pop_eq_ok_of_find f4, RawDict.pop_eq_ok_of_find f5,
                    RawDict.pop_eq_ok_of_find f8, RawDict.pop_eq_ok_of_find f9,
                    RawDict.pop_eq_ok_of_find f10,
                    RawDict.pop_eq_error_of_find e11, okBind, errorBind, pureEq]
              · refine Or.inr ⟨"tags", ?_⟩
                have e10 : RawDict.find (RawDict.removeKey (RawDict.removeKey
                    (RawDict.removeKey (RawDict.removeKey (RawDict.removeKey
                    (RawDict.removeKey (RawDict.removeKey (RawDict.removeKey
                    (RawDict.removeKey d "ssm_agent") "disk_size") "key_name")
                    "min_size") "max_size") "ami_id") "user_data") "instance_types")
                    "labels") "tags" = Option.none :=
                  (RawDict.find_rm9 (by decide) (by decide) (by decide) (by decide)
                    (by decide) (by decide) (by decide) (by decide) (by decide)).trans
                    (RawDict.find_eq_none_of_not_mem m10)
                simp only [ManagedNodegroup.load, base_load, RawDict.popD_eq,
                  RawDict.pop_eq_ok_of_find f1, RawDict.pop_eq_ok_of_find f2,
                  RawDict.pop_eq_ok_of_find f4, RawDict.pop_eq_ok_of_find f5,
                  RawDict.pop_eq_ok_of_find f8, RawDict.pop_eq_ok_of_find f9,
                  RawDict.pop_eq_error_of_find e10, okBind, errorBind]
            · refine Or.inr ⟨"labels", ?_⟩
              have e9 : RawDict.find (RawDict.removeKey (RawDict.removeKey
                  (RawDict.removeKey (RawDict.removeKey (RawDict.removeKey
                  (RawDict.removeKey (RawDict.removeKey (RawDict.removeKey d
                  "ssm_agent") "disk_size") "key_name") "min_size") "max_size")
                  "ami_id") "user_data") "instance_types") "labels" = Option.none :=
                (RawDict.find_rm8 (by decide) (by decide) (by decide) (by decide)
                  (by decide) (by decide) (by decide) (by decide)).trans
                  (RawDict.find_eq_none_of_not_mem m9)
              simp only [ManagedNodegroup.load, base_load, RawDict.popD_eq,
                RawDict.pop_eq_ok_of_find f1, RawDict.pop_eq_ok_of_find f2,
                RawDict.pop_eq_ok_of_find f4, RawDict.pop_eq_ok_of_find f5,
                RawDict.pop_eq_ok_of_find f8,
                RawDict.pop_eq_error_of_find e9, okBind, errorBind]
          · refine Or.inr ⟨"instance_types", ?_⟩
            have e8 : RawDict.find (RawDict.removeKey (RawDict.removeKey
                (RawDict.removeKey (RawDict.removeKey (RawDict.removeKey
                (RawDict.removeKey (RawDict.removeKey d "ssm_agent") "disk_size")
                "key_name") "min_size") "max_size") "ami_id") "user_data")
                "instance_types" = Option.none :=
              (RawDict.find_rm7 (by decide) (by decide) (by decide) (by decide)
                (by decide) (by decide) (by decide)).trans
                (RawDict.find_eq_none_of_not_mem m8)
            simp only [ManagedNodegroup.load, base_load, RawDict.popD_eq,
              RawDict.pop_eq_ok_of_find f1, RawDict.pop_eq_ok_of_find f2,
              RawDict.pop_eq_ok_of_find f4, RawDict.pop_eq_ok_of_find f5,
              RawDict.pop_eq_error_of_find e8, okBind, errorBind]
        · refine Or.inr ⟨"max_size", ?_⟩
          have e5 : RawDict.find (RawDict.removeKey (RawDict.removeKey
              (RawDict.removeKey (RawDict.removeKey d "ssm_agent") "disk_size")
              "key_name") "min_size") "max_size" = Option.none :=
            (RawDict.find_rm4 (by decide) (by decide) (by decide) (by decide)).trans
              (RawDict.find_eq_none_of_not_mem m5)
          simp only [ManagedNodegroup.load, base_load, RawDict.popD_eq,
            RawDict.pop_eq_ok_of_find f1, RawDict.pop_eq_ok_of_find f2,
            RawDict.pop_eq_ok_of_find f4,
            RawDict.pop_eq_error_of_find e5, okBind, errorBind]
      · refine Or.inr ⟨"min_size", ?_⟩
        have e4 : RawDict.find (RawDict.removeKey (RawDict.removeKey
            (RawDict.removeKey d "ssm_agent") "disk_size") "key_name") "min_size"
            = Option.none :=
          (RawDict.find_rm3 (by decide) (by decide) (by decide)).trans
            (RawDict.find_eq_none_of_not_mem m4)
        simp only [ManagedNodegroup.load, base_load, RawDict.popD_eq,
          RawDict.pop_eq_ok_of_find f1, RawDict.pop_eq_ok_of_find f2,
          RawDict.pop_eq_error_of_find e4, okBind, errorBind]
    · refine Or.inr ⟨"disk_size", ?_⟩
      have e2 : RawDict.find (RawDict.removeKey d "ssm_agent") "disk_size"
          = Option.none :=
        (RawDict.find_removeKey_ne (by decide)).trans
          (RawDict.find_eq_none_of_not_mem m2)
      simp only [ManagedNodegroup.load, base_load,
        RawDict.pop_eq_ok_of_find f1,
        RawDict.pop_eq_error_of_find e2, okBind, errorBind]
  · refine Or.inr ⟨"ssm_agent", ?_⟩
    simp only [ManagedNodegroup.load, base_load,
      RawDict.pop_eq_error_of_find (RawDict.find_eq_none_of_not_mem m1), errorBind]

/-- Either every required unmanaged key is present, or
`UnmanagedNodegroup.load` fails with a `KeyError` (the first missing
required key, in pop order). -/
theorem unmanaged_load_req_or_err (d : RawDict) :
    (∀ r ∈ unmanagedRequiredKeys, r ∈ RawDict.keys d) ∨
      ∃ k, UnmanagedNodegroup.load d = .error (.keyError k) := by
  by_cases m1 : "ssm_agent" ∈ RawDict.keys d
  · obtain ⟨v1, f1⟩ := Option.isSome_iff_exists.1 (RawDict.find_isSome_iff_mem.2 m1)
    by_cases m2 : "disk_size" ∈ RawDict.keys d
    · obtain ⟨v2, g2⟩ := Option.isSome_iff_exists.1 (RawDict.find_isSome_iff_mem.2 m2)
      have f2 : RawDict.find (RawDict.removeKey d "ssm_agent") "disk_size" = some v2 :=
        (RawDict.find_removeKey_ne (by decide)).trans g2
      by_cases m4 : "min_size" ∈ RawDict.keys d
      · obtain ⟨v4, g4⟩ := Option.isSome_iff_exists.1 (RawDict.find_isSome_iff_mem.2 m4)
        have f4 : RawDict.find (RawDict.removeKey (RawDict.removeKey (RawDict.removeKey
            d "ssm_agent") "disk_size") "key_name") "min_size" = some v4 :=
          (RawDict.find_rm3 (by decide) (by decide) (by decide)).trans g4
        by_cases m5 : "max_size" ∈ RawDict.keys d
        · obtain ⟨v5, g5⟩ := Option.isSome_iff_exists.1 (RawDict.find_isSome_iff_mem.2 m5)
          have f5 : RawDict.find (RawDict.removeKey (RawDict.removeKey
              (RawDict.removeKey (RawDict.removeKey d "ssm_agent") "disk_size")
              "key_name") "min_size") "max_size" = some v5 :=
            (RawDict.find_rm4 (by decide) (by decide) (by decide) (by decide)).trans g5
          by_cases m8 : "instance_types" ∈ RawDict.keys d
          · obtain ⟨v8, g8⟩ := Option.isSome_iff_exists.1
              (RawDict.find_isSome_iff_mem.2 m8)
            have f8 : RawDict.find (RawDict.removeKey (RawDict.removeKey
                (RawDict.removeKey (RawDict.removeKey (RawDict.removeKey
                (RawDict.removeKey (RawDict.removeKey d "ssm_agent") "disk_size")
                "key_name") "min_size") "max_size") "ami_id") "user_data")
                "instance_types" = some v8 :=
              (RawDict.find_rm7 (by decide) (by decide) (by decide) (by decide)
                (by decide) (by decide) (by decide)).trans g8
            by_cases m9 : "labels" ∈ RawDict.keys d
            · obtain ⟨v9, g9⟩ := Option.isSome_iff_exists.1
                (RawDict.find_isSome_iff_mem.2 m9)
              have f9 : RawDict.find (RawDict.removeKey (RawDict.removeKey
                  (RawDict.removeKey (RawDict.removeKey (RawDict.removeKey
                  (RawDict.removeKey (RawDict.removeKey (RawDict.removeKey d
                  "ssm_agent") "disk_size") "key_name") "min_size") "max_size")
                  "ami_id") "user_data") "instance_types") "labels" = some v9 :=
                (RawDict.find_rm8 (by decide) (by decide) (by decide) (by decide)
                  (by decide) (by decide) (by decide) (by decide)).trans g9
              by_cases m10 : "tags" ∈ RawDict.keys d
              · obtain ⟨v10, g10⟩ := Option.isSome_iff_exists.1
                  (RawDict.find_isSome_iff_mem.2 m10)
                have f10 : RawDict.find (RawDict.removeKey (RawDict.removeKey
                    (RawDict.removeKey (RawDict.removeKey (RawDict.removeKey
                    (RawDict.removeKey (RawDict.removeKey (RawDict.removeKey
                    (RawDict.removeKey d "ssm_agent") "disk_size") "key_name")
                    "min_size") "max_size") "ami_id") "user_data") "instance_types")
                    "labels") "tags" = some v10 :=
                  (RawDict.find_rm9 (by decide) (by decide) (by decide) (by decide)
                    (by decide) (by decide) (by decide) (by decide) (by decide)).trans
                    g10
                by_cases m11 : "gpu" ∈ RawDict.keys d
                · obtain ⟨v11, g11⟩ := Option.isSome_iff_exists.1
                    (RawDict.find_isSome_iff_mem.2 m11)
                  have f11 : RawDict.find (RawDict.removeKey (RawDict.removeKey
                      (RawDict.removeKey (RawDict.removeKey (RawDict.removeKey
                      (RawDict.removeKey (RawDict.removeKey (RawDict.removeKey
                      (RawDict.removeKey (RawDict.removeKey d "ssm_agent")
                      "disk_size") "key_name") "min_size") "max_size") "ami_id")
                      "user_data") "instance_types") "labels") "tags") "gpu"
                      = some v11 :=
                    (RawDict.find_rm10 (by decide) (by decide) (by decide) (by decide)
                      (by decide) (by decide) (by decide) (by decide) (by decide)
                      (by decide)).trans g11
                  by_cases m12 : "imdsv2_required" ∈ RawDict.keys d
                  · obtain ⟨v12, g12⟩ := Option.isSome_iff_exists.1
                      (RawDict.find_isSome_iff_mem.2 m12)
                    have f12 : RawDict.find (RawDict.removeKey (RawDict.removeKey
                        (RawDict.removeKey (RawDict.removeKey (RawDict.removeKey
                        (RawDict.removeKey (RawDict.removeKey (RawDict.removeKey
                        (RawDict.removeKey (RawDict.removeKey (RawDict.removeKey d
                        "ssm_agent") "disk_size") "key_name") "min_size") "max_size")
                        "ami_id") "user_data") "instance_types") "labels") "tags")
                        "gpu") "imdsv2_required" = some v12 :=
                      (RawDict.find_rm11 (by decide) (by decide) (by decide)
                        (by decide) (by decide) (by decide) (by decide) (by decide)
                        (by decide) (by decide) (by decide)).trans g12
                    by_cases m14 : "ingress_ports" ∈ RawDict.keys d
                    · refine Or.inl fun r hr => ?_
                      rw [show unmanagedRequiredKeys = ["ssm_agent", "disk_size",
                        "min_size", "max_size", "instance_types", "labels", "tags",
                        "gpu", "imdsv2_required", "ingress_ports"] from rfl] at hr
                      simp only [List.mem_cons, List.not_mem_nil, or_false] at hr
                      rcases hr with rfl | rfl | rfl | rfl | rfl | rfl | rfl | rfl
                        | rfl | rfl <;> assumption
                    · refine Or.inr ⟨"ingress_ports", ?_⟩
                      have e14 : RawDict.find (RawDict.removeKey (RawDict.removeKey
                          (RawDict.removeKey (RawDict.removeKey (RawDict.removeKey
                          (RawDict.removeKey (RawDict.removeKey (RawDict.removeKey
                          (RawDict.removeKey (RawDict.removeKey (RawDict.removeKey
                          (RawDict.removeKey (RawDict.removeKey d "ssm_agent")
                          "disk_size") "key_name") "min_size") "max_size") "ami_id")
                          "user_data") "instance_types") "labels") "tags") "gpu")
                          "imdsv2_required") "taints") "ingress_ports"
                          = Option.none :=
                        (RawDict.find_rm13 (by decide) (by decide) (by decide)
                          (by decide) (by decide) (by decide) (by decide) (by decide)
                          (by decide) (by decide) (by decide) (by decide)
                          (by decide)).trans (RawDict.find_eq_none_of_not_mem m14)
                      simp only [UnmanagedNodegroup.load, base_load, RawDict.popD_eq,
                        RawDict.pop_eq_ok_of_find f1, RawDict.pop_eq_ok_of_find f2,
                        RawDict.pop_eq_ok_of_find f4, RawDict.pop_eq_ok_of_find f5,
                        RawDict.pop_eq_ok_of_find f8, RawDict.pop_eq_ok_of_find f9,
                        RawDict.pop_eq_ok_of_find f10, RawDict.pop_eq_ok_of_find f11,
                        RawDict.pop_eq_ok_of_find f12,
                        RawDict.pop_eq_error_of_find e14, okBind, errorBind, pureEq]
                  · refine Or.inr ⟨"imdsv2_required", ?_⟩
                    have e12 : RawDict.find (RawDict.removeKey (RawDict.removeKey
                        (RawDict.removeKey (RawDict.removeKey (RawDict.removeKey
                        (RawDict.removeKey (RawDict.removeKey (RawDict.removeKey
                        (RawDict.removeKey (RawDict.removeKey (RawDict.removeKey d
                        "ssm_agent") "disk_size") "key_name") "min_size") "max_size")
                        "ami_id") "user_data") "instance_types") "labels") "tags")
                        "gpu") "imdsv2_required" = Option.none :=
                      (RawDict.find_rm11 (by decide) (by decide) (by decide)
                        (by decide) (by decide) (by decide) (by decide) (by decide)
                        (by decide) (by decide) (by decide)).trans
                        (RawDict.find_eq_none_of_not_mem m12)
                    simp only [UnmanagedNodegroup.load, base_load, RawDict.popD_eq,
                      RawDict.pop_eq_ok_of_find f1, RawDict.pop_eq_ok_of_find f2,
                      RawDict.pop_eq_ok_of_find f4, RawDict.pop_eq_ok_of_find f5,
                      RawDict.pop_eq_ok_of_find f8, RawDict.pop_eq_ok_of_find f9,
                      RawDict.pop_eq_ok_of_find f10, RawDict.pop_eq_ok_of_find f11,
                      RawDict.pop_eq_error_of_find e12, okBind, errorBind, pureEq]
                · refine Or.inr ⟨"gpu", ?_⟩
                  have e11 : RawDict.find (RawDict.removeKey (RawDict.removeKey
                      (RawDict.removeKey (RawDict.removeKey (RawDict.removeKey
                      (RawDict.removeKey (RawDict.removeKey (RawDict.removeKey
                      (RawDict.removeKey (RawDict.removeKey d "ssm_agent")
                      "disk_size") "key_name") "min_size") "max_size") "ami_id")
                      "user_data") "instance_types") "labels") "tags") "gpu"
                      = Option.none :=
                    (RawDict.find_rm10 (by decide) (by decide) (by decide) (by decide)
                      (by decide) (by decide) (by decide) (by decide) (by decide)
                      (by decide)).trans (RawDict.find_eq_none_of_not_mem m11)
                  simp only [UnmanagedNodegroup.load, base_load, RawDict.popD_eq,
                    RawDict.pop_eq_ok_of_find f1, RawDict.pop_eq_ok_of_find f2,
                    RawDict.pop_eq_ok_of_find f4, RawDict.pop_eq_ok_of_find f5,
                    RawDict.pop_eq_ok_of_find f8, RawDict.pop_eq_ok_of_find f9,
                    RawDict.pop_eq_ok_of_find f10,
                    RawDict.pop_eq_error_of_find e11, okBind, errorBind, pureEq]
              · refine Or.inr ⟨"tags", ?_⟩
                have e10 : RawDict.find (RawDict.removeKey (RawDict.removeKey
                    (RawDict.removeKey (RawDict.removeKey (RawDict.removeKey
                    (RawDict.removeKey (RawDict.removeKey (RawDict.removeKey
                    (RawDict.removeKey d "ssm_agent") "disk_size") "key_name")
                    "min_size") "max_size") "ami_id") "user_data") "instance_types")
                    "labels") "tags" = Option.none :=
                  (RawDict.find_rm9 (by decide) (by decide) (by decide) (by decide)
                    (by decide) (by decide) (by decide) (by decide) (by decide)).trans
                    (RawDict.find_eq_none_of_not_mem m10)
                simp only [UnmanagedNodegroup.load, base_load, RawDict.popD_eq,
                  RawDict.pop_eq_ok_of_find f1, RawDict.pop_eq_ok_of_find f2,
                  RawDict.pop_eq_ok_of_find f4, RawDict.pop_eq_ok_of_find f5,
                  RawDict.pop_eq_ok_of_find f8, RawDict.pop_eq_ok_of_find f9,
                  RawDict.pop_eq_error_of_find e10, okBind, errorBind]
            · refine Or.inr ⟨"labels", ?_⟩
              have e9 : RawDict.find (RawDict.removeKey (RawDict.removeKey
                  (RawDict.removeKey (RawDict.removeKey (RawDict.removeKey
                  (RawDict.removeKey (RawDict.removeKey (RawDict.removeKey d
                  "ssm_agent") "disk_size") "key_name") "min_size") "max_size")
                  "ami_id") "user_data") "instance_types") "labels" = Option.none :=
                (RawDict.find_rm8 (by decide) (by decide) (by decide) (by decide)
                  (by decide) (by decide) (by decide) (by decide)).trans
                  (RawDict.find_eq_none_of_not_mem m9)
              simp only [UnmanagedNodegroup.load, base_load, RawDict.popD_eq,
                RawDict.pop_eq_ok_of_find f1, RawDict.pop_eq_ok_of_find f2,
                RawDict.pop_eq_ok_of_find f4, RawDict.pop_eq_ok_of_find f5,
                RawDict.pop_eq_ok_of_find f8,
                RawDict.pop_eq_error_of_find e9, okBind, errorBind]
          · refine Or.inr ⟨"instance_types", ?_⟩
            have e8 : RawDict.find (RawDict.removeKey (RawDict.removeKey
                (RawDict.removeKey (RawDict.removeKey (RawDict.removeKey
                (RawDict.removeKey (RawDict.removeKey d "ssm_agent") "disk_size")
                "key_name") "min_size") "max_size") "ami_id") "user_data")
                "instance_types" = Option.none :=
              (RawDict.find_rm7 (by decide) (by decide) (by decide) (by decide)
                (by decide) (by decide) (by decide)).trans
                (RawDict.find_eq_none_of_not_mem m8)
            simp only [UnmanagedNodegroup.load, base_load, RawDict.popD_eq,
              RawDict.pop_eq_ok_of_find f1, RawDict.pop_eq_ok_of_find f2,
              RawDict.pop_eq_ok_of_find f4, RawDict.pop_eq_ok_of_find f5,
              RawDict.pop_eq_error_of_find e8, okBind, errorBind]
        · refine Or.inr ⟨"max_size", ?_⟩
          have e5 : RawDict.find (RawDict.removeKey (RawDict.removeKey
              (RawDict.removeKey (RawDict.removeKey d "ssm_agent") "disk_size")
              "key_name") "min_size") "max_size" = Option.none :=
            (RawDict.find_rm4 (by decide) (by decide) (by decide) (by decide)).trans
              (RawDict.find_eq_none_of_not_mem m5)
          simp only [UnmanagedNodegroup.load, base_load, RawDict.popD_eq,
            RawDict.pop_eq_ok_of_find f1, RawDict.pop_eq_ok_of_find f2,
            RawDict.pop_eq_ok_of_find f4,
            RawDict.pop_eq_error_of_find e5, okBind, errorBind]
      · refine Or.inr ⟨"min_size", ?_⟩
        have e4 : RawDict.find (RawDict.removeKey (RawDict.removeKey
            (RawDict.removeKey d "ssm_agent") "disk_size") "key_name") "min_size"
            = Option.none :=
          (RawDict.find_rm3 (by decide) (by decide) (by decide)).trans
            (RawDict.find_eq_none_of_not_mem m4)
        simp only [UnmanagedNodegroup.load, base_load, RawDict.popD_eq,
          RawDict.pop_eq_ok_of_find f1, RawDict.pop_eq_ok_of_find f2,
          RawDict.pop_eq_error_of_find e4, okBind, errorBind]
    · refine Or.inr ⟨"disk_size", ?_⟩
      have e2 : RawDict.find (RawDict.removeKey d "ssm_agent") "disk_size"
          = Option.none :=
        (RawDict.find_removeKey_ne (by decide)).trans
          (RawDict.find_eq_none_of_not_mem m2)
      simp only [UnmanagedNodegroup.load, base_load,
        RawDict.pop_eq_ok_of_find f1,
        RawDict.pop_eq_error_of_find e2, okBind, errorBind]
  · refine Or.inr ⟨"ssm_agent", ?_⟩
    simp only [UnmanagedNodegroup.load, base_load,
      RawDict.pop_eq_error_of_find (RawDict.find_eq_none_of_not_mem m1), errorBind]

/-- A successful `ManagedNodegroup.load` yields exactly `managedOf` and
certifies that no unrecognized key was present. -/
theorem managed_load_ok_inv {d : RawDict} {ng : ManagedNodegroup}
    (h : ManagedNodegroup.load d = .ok ng) :
    ng = managedOf d ∧ (RawDict.removeKeys d managedKeys).isEmpty = true := by
  rcases managed_load_req_or_err d with hreq | ⟨k, herr⟩
  · rw [managed_load_eq hreq] at h
    unfold check_leavins at h
    by_cases he : (RawDict.removeKeys d managedKeys).isEmpty = true
    · rw [if_pos he, okBind] at h
      exact ⟨(Except.ok.inj h).symm, he⟩
    · rw [if_neg he, errorBind] at h
      exact absurd h (by simp)
  · rw [herr] at h
    exact absurd h (by simp)

/-- A successful `UnmanagedNodegroup.load` yields exactly `unmanagedOf` and
certifies that no unrecognized key was present. -/
theorem unmanaged_load_ok_inv {d : RawDict} {ng : UnmanagedNodegroup}
    (h : UnmanagedNodegroup.load d = .ok ng) :
    ng = unmanagedOf d ∧ (RawDict.removeKeys d unmanagedKeys).isEmpty = true := by
  rcases unmanaged_load_req_or_err d with hreq | ⟨k, herr⟩
  · rw [unmanaged_load_eq hreq] at h
    unfold check_leavins at h
    by_cases he : (RawDict.removeKeys d unmanagedKeys).isEmpty = true
    · rw [if_pos he, okBind] at h
      exact ⟨(Except.ok.inj h).symm, he⟩
    · rw [if_neg he, errorBind] at h
      exact absurd h (by simp)
  · rw [herr] at h
    exact absurd h (by simp)

end EKS

theorem mapEntries_ok_forward {α : Type} {f : Value → Except PyError α}
    {l : List (String × Value)} {out : List (String × α)}
    (h : mapEntries f l = .ok out) :
    ∀ {name : String} {v : Value}, (name, v) ∈ l →
      ∃ a, f v = .ok a ∧ (name, a) ∈ out := by
  induction l generalizing out with
  | nil => intro name v hm; simp at hm
  | cons p rest ih =>
    intro name v hm
    obtain ⟨pn, pv⟩ := p
    simp only [mapEntries] at h
    rw [except_bind_ok] at h
    obtain ⟨a, hfa, h⟩ := h
    rw [except_bind_ok] at h
    obtain ⟨tail, htail, h⟩ := h
    rw [pureEq] at h
    have hout : out = (pn, a) :: tail := (Except.ok.inj h).symm
    subst hout
    rcases List.mem_cons.1 hm with heq | hm'
    · obtain ⟨hn, hv⟩ := Prod.mk.injEq .. ▸ heq
      subst hn; subst hv
      exact ⟨a, hfa, List.mem_cons_self _ _⟩
    · obtain ⟨a', hfa', hmem'⟩ := ih htail hm'
      exact ⟨a', hfa', List.mem_cons_of_mem _ hmem'⟩

theorem mapEntries_ok_backward {α : Type} {f : Value → Except PyError α}
    {l : List (String × Value)} {out : List (String × α)}
    (h : mapEntries f l = .ok out) :
    ∀ {name : String} {a : α}, (name, a) ∈ out →
      ∃ v, (name, v) ∈ l ∧ f v = .ok a := by
  induction l generalizing out with
  | nil =>
    intro name a hm
    simp only [mapEntries] at h
    have : out = [] := (Except.ok.inj h).symm
    subst this
    simp at hm
  | cons p rest ih =>
    intro name a hm
    obtain ⟨pn, pv⟩ := p
    simp only [mapEntries] at h
    rw [except_bind_ok] at h
    obtain ⟨b, hfb, h⟩ := h
    rw [except_bind_ok] at h
    obtain ⟨tail, htail, h⟩ := h
    rw [pureEq] at h
    have hout : out = (pn, b) :: tail := (Except.ok.inj h).symm
    subst hout
    rcases List.mem_cons.1 hm with heq | hm'
    · obtain ⟨hn, hv⟩ := Prod.mk.injEq .. ▸ heq
      subst hn; subst hv
      exact ⟨pv, List.mem_cons_self _ _, hfb⟩
    · obtain ⟨v', hv', hfv'⟩ := ih htail hm'
      exact ⟨v', List.mem_cons_of_mem _ hv', hfv'⟩

theorem from_loader_ok_inv {α : Type} {ctx : String} {built : α} {d : RawDict}
    {out : α} (h : from_loader ctx built d = .ok out) :
    out = built ∧ d.isEmpty = true := by
  unfold from_loader at h
  by_cases he : d.isEmpty = true
  · rw [if_pos he] at h
    exact ⟨(Except.ok.inj h).symm, he⟩
  · rw [if_neg he] at h
    exact absurd h (by simp)

theorem EKS.init_ok_inv {e e' : EKS} (h : EKS.init e = .ok e') :
    e' = e ∧ e.postInitErrors = [] := by
  unfold EKS.init at h
  by_cases hc : e.postInitErrors.isEmpty = true
  · rw [if_pos hc] at h
    exact ⟨(Except.ok.inj h).symm, List.isEmpty_iff.1 hc⟩
  · rw [if_neg hc] at h
    exact absurd h (by simp)

theorem EKS.init_eq_ok_of_nil {e : EKS} (h : e.postInitErrors = []) :
    EKS.init e = .ok e := by
  unfold EKS.init
  rw [if_pos (List.isEmpty_iff.2 h)]

theorem EKS.init_eq_error_of_ne_nil {e : EKS} (h : e.postInitErrors ≠ []) :
    EKS.init e = .error (.valueError e.postInitErrors) := by
  unfold EKS.init
  rw [if_neg (fun hc => h (List.isEmpty_iff.1 hc))]

namespace RawDict

theorem mem_setAll_inv {d : RawDict} {j : String} {v : Value} {p : String × Value}
    (hp : p ∈ setAll d j v) : p = (j, v) ∨ (p ∈ d ∧ p.1 ≠ j) := by
  induction d with
  | nil => simp [setAll] at hp
  | cons q rest ih =>
    unfold setAll at hp
    by_cases hqj : q.1 = j
    · rw [if_pos hqj] at hp
      rcases List.mem_cons.1 hp with rfl | hp'
      · exact Or.inl rfl
      · rcases ih hp' with h | ⟨hmem, hne⟩
        · exact Or.inl h
        · exact Or.inr ⟨List.mem_cons_of_mem q hmem, hne⟩
    · rw [if_neg hqj] at hp
      rcases List.mem_cons.1 hp with rfl | hp'
      · exact Or.inr ⟨List.mem_cons_self _ _, hqj⟩
      · rcases ih hp' with h | ⟨hmem, hne⟩
        · exact Or.inl h
        · exact Or.inr ⟨List.mem_cons_of_mem q hmem, hne⟩

theorem mem_set_inv {d : RawDict} {j : String} {v : Value} {p : String × Value}
    (hp : p ∈ set d j v) : p = (j, v) ∨ (p ∈ d ∧ p.1 ≠ j) := by
  unfold set at hp
  by_cases hj : d.any (fun q => q.1 = j)
  · rw [if_pos hj] at hp
    exact mem_setAll_inv hp
  · rw [if_neg hj] at hp
    rcases List.mem_append.1 hp with hmem | hone
    · refine Or.inr ⟨hmem, fun hc => ?_⟩
      exact hj (List.any_eq_true.2 ⟨p, hmem, by simpa using hc⟩)
    · exact Or.inl (List.mem_singleton.1 hone)

end RawDict

namespace EKS

/-- On an unmanaged nodegroup, `remap_mi` forces the merged mapping's
`imdsv2_required` entry to `False`, whatever the input held. -/
theorem remap_mi_imdsv2 {v : Value} {d' : RawDict}
    (h : remap_mi true v = .ok d') :
    RawDict.find d' "imdsv2_required" = some (Value.bool false) := by
  cases v with
  | dict ng =>
    simp only [remap_mi, RawDict.popD_eq, if_pos] at h
    set ng1 : RawDict := RawDict.set (RawDict.set ng "imdsv2_required"
      (Value.bool false)) "ingress_ports" (Value.dict []) with hng1
    cases hmi : (RawDict.find ng1 "machine_image").getD (Value.dict []) with
    | dict m =>
      rw [hmi] at h
      have hd' : d' = RawDict.merge m (RawDict.removeKey ng1 "machine_image") :=
        (Except.ok.inj h).symm
      subst hd'
      have hmem : "imdsv2_required" ∈ RawDict.keys
          (RawDict.removeKey ng1 "machine_image") := by
        rw [RawDict.mem_keys_removeKey_iff]
        refine ⟨?_, by decide⟩
        rw [hng1, RawDict.mem_keys_set_iff, RawDict.mem_keys_set_iff]
        exact Or.inl (Or.inr rfl)
      refine RawDict.find_merge_all hmem ?_
      intro p hp hpk
      have hp1 : p ∈ ng1 := List.mem_of_mem_filter hp
      rw [hng1] at hp1
      rcases RawDict.mem_set_inv hp1 with heq | ⟨hp2, hne⟩
      · exact absurd ((congrArg Prod.fst heq).symm.trans hpk) (by decide)
      · rcases RawDict.mem_set_inv hp2 with heq | ⟨_, hne2⟩
        · exact congrArg Prod.snd heq
        · exact absurd hpk hne2
    | str s => rw [hmi] at h; exact absurd h (by simp)
    | bool b => rw [hmi] at h; exact absurd h (by simp)
    | int n => rw [hmi] at h; exact absurd h (by simp)
    | list l => rw [hmi] at h; exact absurd h (by simp)
    | none => rw [hmi] at h; exact absurd h (by simp)
  | str s => exact absurd h (by simp [remap_mi])
  | bool b => exact absurd h (by simp [remap_mi])
  | int n => exact absurd h (by simp [remap_mi])
  | list l => exact absurd h (by simp [remap_mi])
  | none => exact absurd h (by simp [remap_mi])

/-- When the raw nodegroup entry has no top-level `ami_id` key but its
`machine_image` sub-mapping has one, the mapping `remap_mi` produces binds
`ami_id` to the nested value (for either nodegroup variant). -/
theorem remap_mi_ami {unm : Bool} {ng0 m : List (String × Value)} {d' : RawDict}
    {a : Value}
    (hna : "ami_id" ∉ RawDict.keys ng0)
    (hmi : RawDict.find ng0 "machine_image" = some (Value.dict m))
    (hami : RawDict.find m "ami_id" = some a)
    (h : remap_mi unm (Value.dict ng0) = .ok d') :
    RawDict.find d' "ami_id" = some a := by
  cases unm with
  | false =>
    simp only [remap_mi, RawDict.popD_eq, Bool.false_eq_true, if_false] at h
    rw [hmi] at h
    simp only [Option.getD_some] at h
    have hd' : d' = RawDict.merge m (RawDict.removeKey ng0 "machine_image") :=
      (Except.ok.inj h).symm
    subst hd'
    have hnot : "ami_id" ∉ RawDict.keys (RawDict.removeKey ng0 "machine_image") :=
      fun hc => hna (RawDict.mem_keys_removeKey_iff.1 hc).1
    rw [RawDict.find_merge_not_mem hnot, hami]
  | true =>
    simp only [remap_mi, RawDict.popD_eq, if_pos] at h
    set ng1 : RawDict := RawDict.set (RawDict.set ng0 "imdsv2_required"
      (Value.bool false)) "ingress_ports" (Value.dict []) with hng1
    have hmi1 : RawDict.find ng1 "machine_image" = some (Value.dict m) := by
      rw [hng1, RawDict.find_set_ne (by decide), RawDict.find_set_ne (by decide), hmi]
    rw [hmi1] at h
    simp only [Option.getD_some] at h
    have hd' : d' = RawDict.merge m (RawDict.removeKey ng1 "machine_image") :=
      (Except.ok.inj h).symm
    subst hd'
    have hnot : "ami_id" ∉ RawDict.keys (RawDict.removeKey ng1 "machine_image") := by
      intro hc
      have h1 := (RawDict.mem_keys_removeKey_iff.1 hc).1
      rw [hng1, RawDict.mem_keys_set_iff, RawDict.mem_keys_set_iff] at h1
      rcases h1 with (h2 | h2) | h2
      · exact hna h2
      · exact absurd h2 (by decide)
      · exact absurd h2 (by decide)
    rw [RawDict.find_merge_not_mem hnot, hami]

/-- Inversion of a successful `from_0_0_1`: the construction's field values
and the nodegroup pipelines, expressed against the original mapping. -/
theorem from_0_0_1_ok_inv {c : RawDict} {e : EKS}
    (h : EKS.from_0_0_1 c = .ok e) :
    e.secrets_encryption_key_arn
        = (RawDict.find c "secrets_encryption_key_arn").getD Value.none ∧
    (∃ mitems,
      itemsOf ((RawDict.find c "managed_nodegroups").getD (Value.dict [])) = .ok mitems ∧
      mapEntries loadManagedEntry mitems = .ok e.managed_nodegroups) ∧
    (∃ uitems,
      itemsOf ((RawDict.find c "unmanaged_nodegroups").getD (Value.dict []))
        = .ok uitems ∧
      mapEntries loadUnmanagedEntry uitems = .ok e.unmanaged_nodegroups) := by
  simp only [EKS.from_0_0_1, RawDict.popD_eq, except_bind_ok, Prod.exists] at h
  obtain ⟨ver, c1, hp1, cpac, c2, hp2, papi, c3, hp3, azs, c4, hp4, gnl, c5, hp5,
    gnt, c6, hp6, mitems, hitems1, managedL, hmap1, uitems, hitems2, unmanagedL,
    hmap2, e', hinit, hfl⟩ := h
  obtain ⟨hf1, hc1⟩ := RawDict.pop_ok_inv hp1
  subst hc1
  obtain ⟨hf2, hc2⟩ := RawDict.pop_ok_inv hp2
  subst hc2
  obtain ⟨hf3, hc3⟩ := RawDict.pop_ok_inv hp3
  subst hc3
  obtain ⟨hf4, hc4⟩ := RawDict.pop_ok_inv hp4
  subst hc4
  obtain ⟨hf5, hc5⟩ := RawDict.pop_ok_inv hp5
  subst hc5
  obtain ⟨hf6, hc6⟩ := RawDict.pop_ok_inv hp6
  subst hc6
  obtain ⟨he', _⟩ := EKS.init_ok_inv hinit
  obtain ⟨hee, _⟩ := from_loader_ok_inv hfl
  subst hee
  subst he'
  refine ⟨?_, ⟨mitems, ?_, hmap1⟩, ⟨uitems, ?_, hmap2⟩⟩
  · show (RawDict.find (RawDict.removeKey (RawDict.removeKey (RawDict.removeKey c
      "version") "control_plane_access_cidrs") "private_api")
      "secrets_encryption_key_arn").getD Value.none
      = (RawDict.find c "secrets_encryption_key_arn").getD Value.none
    rw [RawDict.find_rm3 (by decide) (by decide) (by decide)]
  · rw [RawDict.find_rm7 (by decide) (by decide) (by decide) (by decide) (by decide)
      (by decide) (by decide)] at hitems1
    exact hitems1
  · rw [RawDict.find_rm8 (by decide) (by decide) (by decide) (by decide) (by decide)
      (by decide) (by decide) (by decide)] at hitems2
    exact hitems2

/-- Inversion of a successful `from_0_0_0`: the forced field values and
the remapped nodegroup pipelines, expressed against the original mapping. -/
theorem from_0_0_0_ok_inv {c : RawDict} {e : EKS}
    (h : EKS.from_0_0_0 c = .ok e) :
    e.control_plane_access_cidrs = Value.list [] ∧
    e.secrets_encryption_key_arn = Value.none ∧
    (∃ mitems,
      itemsOf ((RawDict.find c "managed_nodegroups").getD (Value.dict [])) = .ok mitems ∧
      mapEntries (fun v => remap_mi false v >>= ManagedNodegroup.load) mitems
        = .ok e.managed_nodegroups) ∧
    (∃ uitems,
      itemsOf ((RawDict.find c "nodegroups").getD (Value.dict [])) = .ok uitems ∧
      mapEntries (fun v => remap_mi true v >>= UnmanagedNodegroup.load) uitems
        = .ok e.unmanaged_nodegroups) := by
  simp only [EKS.from_0_0_0, RawDict.popD_eq, except_bind_ok, Prod.exists] at h
  obtain ⟨ver, c1, hp1, papi, c2, hp2, azs, c3, hp3, gnl, c4, hp4, gnt, c5, hp5,
    mitems, hitems1, managedL, hmap1, uitems, hitems2, unmanagedL, hmap2, e',
    hinit, hfl⟩ := h
  obtain ⟨hf1, hc1⟩ := RawDict.pop_ok_inv hp1
  subst hc1
  obtain ⟨hf2, hc2⟩ := RawDict.pop_ok_inv hp2
  subst hc2
  obtain ⟨hf3, hc3⟩ := RawDict.pop_ok_inv hp3
  subst hc3
  obtain ⟨hf4, hc4⟩ := RawDict.pop_ok_inv hp4
  subst hc4
  obtain ⟨hf5, hc5⟩ := RawDict.pop_ok_inv hp5
  subst hc5
  obtain ⟨he', _⟩ := EKS.init_ok_inv hinit
  obtain ⟨hee, _⟩ := from_loader_ok_inv hfl
  subst hee
  subst he'
  refine ⟨rfl, rfl, ⟨mitems, ?_, hmap1⟩, ⟨uitems, ?_, hmap2⟩⟩
  · rw [RawDict.find_rm5 (by decide) (by decide) (by decide) (by decide)
      (by decide)] at hitems1
    exact hitems1
  · rw [RawDict.find_rm6 (by decide) (by decide) (by decide) (by decide) (by decide)
      (by decide)] at hitems2
    exact hitems2

/-! ### The individual validation rules of `__post_init__` -/

/-- Rule: `ami_id and not user_data` on a managed nodegroup. -/
def managedUserDataViol (ng : ManagedNodegroup) : Prop :=
  ng.ami_id.truthy ∧ ¬ng.user_data.truthy

/-- Rule: `ami_id and (ssm_agent or labels)` on a managed nodegroup. -/
def managedIncompatViol (ng : ManagedNodegroup) : Prop :=
  ng.ami_id.truthy ∧ (ng.ssm_agent.truthy || ng.labels.truthy)

/-- Rule: `min_size == 0` on a managed nodegroup. -/
def managedMinSizeViol (ng : ManagedNodegroup) : Prop :=
  ng.min_size.pyEqZero = true

/-- Rule: `ami_id and not user_data` on an unmanaged nodegroup. -/
def unmanagedUserDataViol (ng : UnmanagedNodegroup) : Prop :=
  ng.ami_id.truthy ∧ ¬ng.user_data.truthy

/-- Rule: `ami_id and (ssm_agent or labels or taints)` on an unmanaged
nodegroup. -/
def unmanagedIncompatViol (ng : UnmanagedNodegroup) : Prop :=
  ng.ami_id.truthy ∧ (ng.ssm_agent.truthy || ng.labels.truthy || ng.taints.truthy)

/-- Rule: `control_plane_access_cidrs and private_api` at the top level. -/
def accessModesViol (e : EKS) : Prop :=
  e.control_plane_access_cidrs.truthy ∧ e.private_api.truthy

/-- Some validation rule fires somewhere in the object. -/
def hasViolation (e : EKS) : Prop :=
  (∃ p ∈ e.managed_nodegroups,
    managedUserDataViol p.2 ∨ managedIncompatViol p.2 ∨ managedMinSizeViol p.2) ∨
  (∃ p ∈ e.unmanaged_nodegroups,
    unmanagedUserDataViol p.2 ∨ unmanagedIncompatViol p.2) ∨
  accessModesViol e

theorem managedNgErrors_eq_nil_iff (p : String × ManagedNodegroup) :
    managedNgErrors p = [] ↔
      ¬managedUserDataViol p.2 ∧ ¬managedIncompatViol p.2 ∧ ¬managedMinSizeViol p.2 := by
  unfold managedNgErrors check_ami_exceptions managedUserDataViol managedIncompatViol
    managedMinSizeViol
  split_ifs with h1 h2 h3 <;> simp_all

theorem unmanagedNgErrors_eq_nil_iff (p : String × UnmanagedNodegroup) :
    unmanagedNgErrors p = [] ↔
      ¬unmanagedUserDataViol p.2 ∧ ¬unmanagedIncompatViol p.2 := by
  unfold unmanagedNgErrors check_ami_exceptions unmanagedUserDataViol
    unmanagedIncompatViol
  split_ifs with h1 h2 <;> simp_all

/-- The accumulated error list is empty exactly when no rule fires. -/
theorem postInitErrors_eq_nil_iff (e : EKS) :
    e.postInitErrors = [] ↔ ¬hasViolation e := by
  unfold postInitErrors hasViolation
  rw [List.append_eq_nil, List.append_eq_nil]
  constructor
  · rintro ⟨⟨hm, hu⟩, hc⟩
    rw [List.flatMap_eq_nil_iff] at hm hu
    rintro (⟨p, hp, hv⟩ | ⟨p, hp, hv⟩ | hv)
    · have := (managedNgErrors_eq_nil_iff p).1 (hm p hp)
      rcases hv with h | h | h
      · exact this.1 h
      · exact this.2.1 h
      · exact this.2.2 h
    · have := (unmanagedNgErrors_eq_nil_iff p).1 (hu p hp)
      rcases hv with h | h
      · exact this.1 h
      · exact this.2 h
    · unfold accessModesViol at hv
      rw [if_pos hv] at hc
      exact absurd hc (by simp)
  · intro hnv
    refine ⟨⟨?_, ?_⟩, ?_⟩
    · rw [List.flatMap_eq_nil_iff]
      intro p hp
      rw [managedNgErrors_eq_nil_iff]
      refine ⟨fun h => hnv ?_, fun h => hnv ?_, fun h => hnv ?_⟩
      · exact Or.inl ⟨p, hp, Or.inl h⟩
      · exact Or.inl ⟨p, hp, Or.inr (Or.inl h)⟩
      · exact Or.inl ⟨p, hp, Or.inr (Or.inr h)⟩
    · rw [List.flatMap_eq_nil_iff]
      intro p hp
      rw [unmanagedNgErrors_eq_nil_iff]
      refine ⟨fun h => hnv ?_, fun h => hnv ?_⟩
      · exact Or.inr (Or.inl ⟨p, hp, Or.inl h⟩)
      · exact Or.inr (Or.inl ⟨p, hp, Or.inr h⟩)
    · rw [if_neg (show ¬(e.control_plane_access_cidrs.truthy ∧ e.private_api.truthy)
        from fun h => hnv (Or.inr (Or.inr h)))]

theorem mem_postInitErrors_of_mem_managed {e : EKS} {p : String × ManagedNodegroup}
    (hp : p ∈ e.managed_nodegroups) {m : String} (hm : m ∈ managedNgErrors p) :
    m ∈ e.postInitErrors :=
  List.mem_append_left _ (List.mem_append_left _
    (List.mem_flatMap.2 ⟨p, hp, hm⟩))

theorem mem_postInitErrors_of_mem_unmanaged {e : EKS}
    {p : String × UnmanagedNodegroup}
    (hp : p ∈ e.unmanaged_nodegroups) {m : String} (hm : m ∈ unmanagedNgErrors p) :
    m ∈ e.postInitErrors :=
  List.mem_append_left _ (List.mem_append_right _
    (List.mem_flatMap.2 ⟨p, hp, hm⟩))

theorem userData_mem_managedNgErrors {p : String × ManagedNodegroup}
    (h : managedUserDataViol p.2) :
    amiUserDataMsg (managedErrorName p.1) ∈ managedNgErrors p := by
  unfold managedUserDataViol at h
  unfold managedNgErrors check_ami_exceptions
  rw [if_pos h]
  exact List.mem_append_left _ (List.mem_append_left _ (List.mem_singleton.2 rfl))

theorem incompat_mem_managedNgErrors {p : String × ManagedNodegroup}
    (h : managedIncompatViol p.2) :
    amiIncompatibleMsg (managedErrorName p.1) ∈ managedNgErrors p := by
  unfold managedIncompatViol at h
  unfold managedNgErrors check_ami_exceptions
  rw [if_pos h]
  exact List.mem_append_left _ (List.mem_append_right _ (List.mem_singleton.2 rfl))

theorem minSize_mem_managedNgErrors {p : String × ManagedNodegroup}
    (h : managedMinSizeViol p.2) :
    minSizeZeroMsg (managedErrorName p.1) ∈ managedNgErrors p := by
  unfold managedMinSizeViol at h
  unfold managedNgErrors
  rw [if_pos h]
  exact List.mem_append_right _ (List.mem_singleton.2 rfl)

theorem userData_mem_unmanagedNgErrors {p : String × UnmanagedNodegroup}
    (h : unmanagedUserDataViol p.2) :
    amiUserDataMsg (unmanagedErrorName p.1) ∈ unmanagedNgErrors p := by
  unfold unmanagedUserDataViol at h
  unfold unmanagedNgErrors check_ami_exceptions
  rw [if_pos h]
  exact List.mem_append_left _ (List.mem_singleton.2 rfl)

theorem incompat_mem_unmanagedNgErrors {p : String × UnmanagedNodegroup}
    (h : unmanagedIncompatViol p.2) :
    amiIncompatibleMsg (unmanagedErrorName p.1) ∈ unmanagedNgErrors p := by
  unfold unmanagedIncompatViol at h
  unfold unmanagedNgErrors check_ami_exceptions
  rw [if_pos h]
  exact List.mem_append_right _ (List.mem_singleton.2 rfl)

theorem cidr_mem_postInitErrors {e : EKS} (h : accessModesViol e) :
    accessCidrsPrivateApiMsg ∈ e.postInitErrors := by
  unfold accessModesViol at h
  unfold postInitErrors
  rw [if_pos h]
  exact List.mem_append_right _ (List.mem_singleton.2 rfl)

end EKS

/-! ### Separating the validation message families by their first character -/

/-- The first character of a string, used to tell the validation message
families apart. -/
def firstChar (s : String) : Option Char := s.data.head?

theorem data_append_ne_nil {s t : String} (h : s.data ≠ []) :
    (s ++ t).data ≠ [] := by
  rw [String.data_append]
  intro hc
  exact h (List.append_eq_nil.1 hc).1

theorem firstChar_append {s t : String} (h : s.data ≠ []) :
    firstChar (s ++ t) = firstChar s := by
  unfold firstChar
  rw [String.data_append]
  cases hs : s.data with
  | nil => exact absurd hs h
  | cons a l => rfl

theorem RawDict.mem_keys_removeKeys {d : RawDict} {ks : List String} {k : String}
    (hk : k ∈ RawDict.keys d) (hne : ∀ j ∈ ks, k ≠ j) :
    k ∈ RawDict.keys (RawDict.removeKeys d ks) := by
  induction ks generalizing d with
  | nil => exact hk
  | cons j rest ih =>
    show k ∈ RawDict.keys (RawDict.removeKeys (RawDict.removeKey d j) rest)
    exact ih (RawDict.mem_keys_removeKey_iff.2
        ⟨hk, hne j (List.mem_cons_self j rest)⟩)
      (fun i hi => hne i (List.mem_cons_of_mem j hi))

namespace EKS

theorem firstChar_managedErrorName_append (n t : String) :
    firstChar (managedErrorName n ++ t) = some 'M' := by
  unfold managedErrorName
  rw [firstChar_append (data_append_ne_nil (data_append_ne_nil (by decide))),
    firstChar_append (data_append_ne_nil (by decide)),
    firstChar_append (by decide)]
  rfl

theorem firstChar_unmanagedErrorName_append (n t : String) :
    firstChar (unmanagedErrorName n ++ t) = some 'U' := by
  unfold unmanagedErrorName
  rw [firstChar_append (data_append_ne_nil (data_append_ne_nil (by decide))),
    firstChar_append (data_append_ne_nil (by decide)),
    firstChar_append (by decide)]
  rfl

theorem firstChar_minSizeZeroMsg (x : String) :
    firstChar (minSizeZeroMsg x) = some 'E' := by
  unfold minSizeZeroMsg
  rw [firstChar_append (data_append_ne_nil (by decide)),
    firstChar_append (by decide)]
  rfl

theorem firstChar_accessMsg : firstChar accessCidrsPrivateApiMsg = some 'C' := by
  decide

theorem mem_managedNgErrors_inv {p : String × ManagedNodegroup} {m : String}
    (hm : m ∈ managedNgErrors p) :
    m = amiUserDataMsg (managedErrorName p.1) ∨
    m = amiIncompatibleMsg (managedErrorName p.1) ∨
    m = minSizeZeroMsg (managedErrorName p.1) := by
  unfold managedNgErrors check_ami_exceptions at hm
  split_ifs at hm <;> simp_all <;> tauto

theorem mem_unmanagedNgErrors_inv {p : String × UnmanagedNodegroup} {m : String}
    (hm : m ∈ unmanagedNgErrors p) :
    m = amiUserDataMsg (unmanagedErrorName p.1) ∨
    m = amiIncompatibleMsg (unmanagedErrorName p.1) := by
  unfold unmanagedNgErrors check_ami_exceptions at hm
  split_ifs at hm <;> simp_all

theorem firstChar_of_mem_managedNgErrors {p : String × ManagedNodegroup}
    {m : String} (hm : m ∈ managedNgErrors p) :
    firstChar m = some 'M' ∨ firstChar m = some 'E' := by
  rcases mem_managedNgErrors_inv hm with rfl | rfl | rfl
  · exact Or.inl (firstChar_managedErrorName_append _ _)
  · exact Or.inl (firstChar_managedErrorName_append _ _)
  · exact Or.inr (firstChar_minSizeZeroMsg _)

theorem firstChar_of_mem_unmanagedNgErrors {p : String × UnmanagedNodegroup}
    {m : String} (hm : m ∈ unmanagedNgErrors p) :
    firstChar m = some 'U' := by
  rcases mem_unmanagedNgErrors_inv hm with rfl | rfl
  · exact firstChar_unmanagedErrorName_append _ _
  · exact firstChar_unmanagedErrorName_append _ _

/-- The access-mode message appears in the accumulated errors exactly when
the access-mode rule fires. -/
theorem cidr_mem_postInitErrors_iff (e : EKS) :
    accessCidrsPrivateApiMsg ∈ e.postInitErrors ↔ accessModesViol e := by
  constructor
  · intro hm
    unfold postInitErrors at hm
    rcases List.mem_append.1 hm with hm1 | hm2
    · rcases List.mem_append.1 hm1 with hmm | hmu
      · obtain ⟨p, _, hpm⟩ := List.mem_flatMap.1 hmm
        rcases firstChar_of_mem_managedNgErrors hpm with hf | hf <;>
          exact absurd (firstChar_accessMsg.symm.trans hf) (by decide)
      · obtain ⟨p, _, hpm⟩ := List.mem_flatMap.1 hmu
        exact absurd (firstChar_accessMsg.symm.trans
          (firstChar_of_mem_unmanagedNgErrors hpm)) (by decide)
    · by_cases hv : e.control_plane_access_cidrs.truthy ∧ e.private_api.truthy
      · exact hv
      · rw [if_neg hv] at hm2
        exact absurd hm2 (by simp)
  · exact cidr_mem_postInitErrors

end EKS

/-! ## The claims -/

/-- C1: a raw nodegroup mapping (managed or unmanaged) holding a key the
variant's loader does not recognize — while holding the keys the loader
requires — makes loading fail with a leftover-key `ConfigError` naming that
key; no unrecognized nodegroup-level key is silently ignored. -/
theorem C1_unrecognized_nodegroup_key_rejected (d : RawDict) (k : String)
    (hk : k ∈ RawDict.keys d) :
    (k ∉ EKS.managedKeys → (∀ r ∈ EKS.managedRequiredKeys, r ∈ RawDict.keys d) →
      ∃ ctx ks, EKS.ManagedNodegroup.load d = .error (.configError ctx ks) ∧ k ∈ ks) ∧
    (k ∉ EKS.unmanagedKeys → (∀ r ∈ EKS.unmanagedRequiredKeys, r ∈ RawDict.keys d) →
      ∃ ctx ks, EKS.UnmanagedNodegroup.load d = .error (.configError ctx ks) ∧
        k ∈ ks) := by
  constructor
  · intro hnot hreq
    have hne : ∀ j ∈ EKS.managedKeys, k ≠ j := fun j hj hc => hnot (hc ▸ hj)
    have hkR : k ∈ RawDict.keys (RawDict.removeKeys d EKS.managedKeys) :=
      RawDict.mem_keys_removeKeys hk hne
    have hRne : ¬((RawDict.removeKeys d EKS.managedKeys).isEmpty = true) := by
      intro hc
      rw [List.isEmpty_iff.1 hc] at hkR
      simp [RawDict.keys] at hkR
    rw [EKS.managed_load_eq hreq]
    unfold check_leavins
    rw [if_neg hRne, errorBind]
    exact ⟨_, _, rfl, hkR⟩
  · intro hnot hreq
    have hne : ∀ j ∈ EKS.unmanagedKeys, k ≠ j := fun j hj hc => hnot (hc ▸ hj)
    have hkR : k ∈ RawDict.keys (RawDict.removeKeys d EKS.unmanagedKeys) :=
      RawDict.mem_keys_removeKeys hk hne
    have hRne : ¬((RawDict.removeKeys d EKS.unmanagedKeys).isEmpty = true) := by
      intro hc
      rw [List.isEmpty_iff.1 hc] at hkR
      simp [RawDict.keys] at hkR
    rw [EKS.unmanaged_load_eq hreq]
    unfold check_leavins
    rw [if_neg hRne, errorBind]
    exact ⟨_, _, rfl, hkR⟩

/-- A managed nodegroup mapping with every required key and one extra
unrecognized key `extraa`. -/
def c1wManaged : RawDict :=
  [("ssm_agent", Value.bool false), ("disk_size", Value.int 100),
   ("min_size", Value.int 1), ("max_size", Value.int 2),
   ("instance_types", Value.list [Value.str "m5.large"]),
   ("labels", Value.dict []), ("tags", Value.dict []),
   ("spot", Value.bool false), ("desired_size", Value.int 1),
   ("extraa", Value.int 5)]

/-- An unmanaged nodegroup mapping with every required key and one extra
unrecognized key `extraa`. -/
def c1wUnmanaged : RawDict :=
  [("ssm_agent", Value.bool false), ("disk_size", Value.int 100),
   ("min_size", Value.int 0), ("max_size", Value.int 2),
   ("instance_types", Value.list [Value.str "m5.large"]),
   ("labels", Value.dict []), ("tags", Value.dict []),
   ("gpu", Value.bool false), ("imdsv2_required", Value.bool true),
   ("ingress_ports", Value.list []), ("extraa", Value.int 5)]

theorem C1_unrecognized_nodegroup_key_rejected_witness :
    (∃ ctx ks, EKS.ManagedNodegroup.load c1wManaged
        = .error (.configError ctx ks) ∧ "extraa" ∈ ks) ∧
    (∃ ctx ks, EKS.UnmanagedNodegroup.load c1wUnmanaged
        = .error (.configError ctx ks) ∧ "extraa" ∈ ks) :=
  ⟨(C1_unrecognized_nodegroup_key_rejected c1wManaged "extraa" (by decide)).1
      (by decide) (by decide),
   (C1_unrecognized_nodegroup_key_rejected c1wUnmanaged "extraa" (by decide)).2
      (by decide) (by decide)⟩

theorem EKS.init_error_inv {e : EKS} {pe : PyError}
    (h : EKS.init e = .error pe) :
    pe = .valueError e.postInitErrors ∧ e.postInitErrors ≠ [] := by
  unfold EKS.init at h
  by_cases hc : e.postInitErrors.isEmpty = true
  · rw [if_pos hc] at h
    exact absurd h (by simp)
  · rw [if_neg hc] at h
    exact ⟨(Except.error.inj h).symm, fun hn => hc (List.isEmpty_iff.2 hn)⟩

/-- A managed nodegroup whose `min_size` is the integer `-1` (no custom
AMI, so no other rule can fire). -/
def c3Ng : EKS.ManagedNodegroup :=
  ⟨⟨Value.bool false, Value.int 100, Value.none, Value.int (-1), Value.int 2,
    Value.none, Value.none, Value.list [Value.str "m5.large"], Value.dict [],
    Value.dict []⟩, Value.bool false, Value.int 1⟩

/-- An `EKS` whose one managed nodegroup has `min_size = -1`. -/
def c3Eks : EKS :=
  ⟨Value.str "1.20", Value.list [], Value.bool false, Value.int 3,
   Value.dict [], Value.dict [], Value.none, [("g", c3Ng)], []⟩

/-- C3, counterexample: an `EKS` whose managed nodegroup has
`min_size = -1` completes construction without any error, so a constructed
`EKS` does not have every managed `min_size` strictly greater than `0`. -/
theorem C3_counterexample :
    EKS.init c3Eks = .ok c3Eks ∧
    ¬(∀ p ∈ c3Eks.managed_nodegroups,
        ∃ n : Int, p.2.min_size = Value.int n ∧ 0 < n) := by
  refine ⟨rfl, fun hall => ?_⟩
  obtain ⟨n, hn, hpos⟩ := hall ("g", c3Ng) (List.mem_singleton.2 rfl)
  have hn' : Value.int (-1) = Value.int n := hn
  injection hn' with hn2
  omega

/-- C3, amended: validation rejects exactly a managed `min_size` that is
Python-equal to `0`; every `EKS` that completes construction has every
managed nodegroup `min_size` not Python-equal to `0` (negative values are
not rejected). -/
theorem C3_constructed_managed_min_size_not_zero (e e' : EKS)
    (h : EKS.init e = .ok e') :
    ∀ p ∈ e'.managed_nodegroups, p.2.min_size.pyEqZero = false := by
  obtain ⟨he, hnil⟩ := EKS.init_ok_inv h
  subst he
  intro p hp
  have hnv := (EKS.postInitErrors_eq_nil_iff _).1 hnil
  cases hb : p.2.min_size.pyEqZero with
  | false => rfl
  | true => exact absurd (Or.inl ⟨p, hp, Or.inr (Or.inr hb)⟩) hnv

theorem C3_constructed_managed_min_size_not_zero_witness :
    ("g", c3Ng).2.min_size.pyEqZero = false :=
  C3_constructed_managed_min_size_not_zero c3Eks c3Eks rfl ("g", c3Ng)
    (List.mem_singleton.2 rfl)

/-- A managed nodegroup mapping with `min_size = 5 > max_size = 2` and
`desired_size = 100` outside `[min_size, max_size]`, all positive. -/
def c9Raw : RawDict :=
  [("ssm_agent", Value.bool false), ("disk_size", Value.int 100),
   ("min_size", Value.int 5), ("max_size", Value.int 2),
   ("instance_types", Value.list [Value.str "m5.large"]),
   ("labels", Value.dict []), ("tags", Value.dict []),
   ("spot", Value.bool false), ("desired_size", Value.int 100)]

/-- The nodegroup `c9Raw` loads to. -/
def c9Ng : EKS.ManagedNodegroup :=
  ⟨⟨Value.bool false, Value.int 100, Value.none, Value.int 5, Value.int 2,
    Value.none, Value.none, Value.list [Value.str "m5.large"], Value.dict [],
    Value.dict []⟩, Value.bool false, Value.int 100⟩

/-- An `EKS` holding that nodegroup. -/
def c9Eks : EKS :=
  ⟨Value.str "1.20", Value.list [], Value.bool false, Value.int 3,
   Value.dict [], Value.dict [], Value.none, [("g", c9Ng)], []⟩

/-- C9: validation imposes no ordering among the size fields: a managed
nodegroup with `min_size = 5 > max_size = 2` and `desired_size = 100`
outside the range loads and passes construction with no error. -/
theorem C9_no_size_ordering_rule :
    EKS.ManagedNodegroup.load c9Raw = .ok c9Ng ∧
    EKS.init c9Eks = .ok c9Eks ∧
    c9Ng.min_size = Value.int 5 ∧ c9Ng.max_size = Value.int 2 ∧
    c9Ng.desired_size = Value.int 100 :=
  ⟨rfl, rfl, rfl, rfl, rfl⟩

/-- C5: a managed nodegroup whose `min_size` is Python-equal to `0` makes
construction fail with the scale-to-zero error in the payload, while an
unmanaged nodegroup with the same shared fields and `min_size = 0` passes
construction (when no other rule fires: no truthy `ami_id`, and the two
access-mode fields not both truthy). -/
theorem C5_min_size_zero_managed_only
    (b : EKS.BaseFields) (name : String)
    (spot desired gpu imds taints : Value) (ports : List IngressRule)
    (ver cpac papi azs gnl gnt seka : Value)
    (hmin : b.min_size.pyEqZero = true) :
    (∃ errs, EKS.init ⟨ver, cpac, papi, azs, gnl, gnt, seka,
        [(name, ⟨b, spot, desired⟩)], []⟩ = .error (.valueError errs) ∧
      EKS.minSizeZeroMsg (EKS.managedErrorName name) ∈ errs) ∧
    (¬b.ami_id.truthy →
     ¬(cpac.truthy ∧ papi.truthy) →
      EKS.init ⟨ver, cpac, papi, azs, gnl, gnt, seka, [],
        [(name, ⟨b, gpu, imds, taints, ports⟩)]⟩
        = .ok ⟨ver, cpac, papi, azs, gnl, gnt, seka, [],
            [(name, ⟨b, gpu, imds, taints, ports⟩)]⟩) ∧
    (∀ x, EKS.minSizeZeroMsg x ∉ EKS.postInitErrors
        ⟨ver, cpac, papi, azs, gnl, gnt, seka, [],
         [(name, ⟨b, gpu, imds, taints, ports⟩)]⟩) := by
  refine ⟨?_, ?_, ?_⟩
  · set em : EKS := ⟨ver, cpac, papi, azs, gnl, gnt, seka,
      [(name, ⟨b, spot, desired⟩)], []⟩ with hem
    have hp : (name, (⟨b, spot, desired⟩ : EKS.ManagedNodegroup))
        ∈ em.managed_nodegroups := List.mem_singleton.2 rfl
    have hviol : EKS.managedMinSizeViol
        (⟨b, spot, desired⟩ : EKS.ManagedNodegroup) := hmin
    have hmem : EKS.minSizeZeroMsg (EKS.managedErrorName name)
        ∈ em.postInitErrors :=
      EKS.mem_postInitErrors_of_mem_managed hp
        (EKS.minSize_mem_managedNgErrors hviol)
    have hne : em.postInitErrors ≠ [] := fun hn => by
      rw [hn] at hmem
      simp at hmem
    exact ⟨em.postInitErrors, EKS.init_eq_error_of_ne_nil hne, hmem⟩
  · intro hami hcp
    set eu : EKS := ⟨ver, cpac, papi, azs, gnl, gnt, seka, [],
      [(name, ⟨b, gpu, imds, taints, ports⟩)]⟩ with heu
    refine EKS.init_eq_ok_of_nil ((EKS.postInitErrors_eq_nil_iff eu).2 ?_)
    rintro (⟨p, hp, _⟩ | ⟨p, hp, hv⟩ | hv)
    · simp [heu] at hp
    · have hp' : p = (name, (⟨b, gpu, imds, taints, ports⟩ :
          EKS.UnmanagedNodegroup)) := by
        simpa [heu] using hp
      subst hp'
      rcases hv with ⟨h1, _⟩ | ⟨h1, _⟩ <;> exact hami h1
    · exact hcp hv
  · intro x hmem
    unfold EKS.postInitErrors at hmem
    rcases List.mem_append.1 hmem with hm1 | hm2
    · rcases List.mem_append.1 hm1 with hmm | hmu
      · simp at hmm
      · obtain ⟨p, -, hpm⟩ := List.mem_flatMap.1 hmu
        have h1 := EKS.firstChar_of_mem_unmanagedNgErrors hpm
        rw [EKS.firstChar_minSizeZeroMsg x] at h1
        exact absurd h1 (by decide)
    · by_cases hv : cpac.truthy ∧ papi.truthy
      · rw [if_pos hv] at hm2
        have h1 : EKS.minSizeZeroMsg x = EKS.accessCidrsPrivateApiMsg :=
          List.mem_singleton.1 hm2
        have h2 := congrArg firstChar h1
        rw [EKS.firstChar_minSizeZeroMsg x, EKS.firstChar_accessMsg] at h2
        exact absurd h2 (by decide)
      · rw [if_neg hv] at hm2
        simp at hm2

/-- The shared fields for the C5 witness: `min_size = 0`, no custom AMI. -/
def c5Base : EKS.BaseFields :=
  ⟨Value.bool false, Value.int 100, Value.none, Value.int 0, Value.int 2,
   Value.none, Value.none, Value.list [Value.str "m5.large"], Value.dict [],
   Value.dict []⟩

theorem C5_min_size_zero_managed_only_witness :
    (∃ errs, EKS.init ⟨Value.str "1.20", Value.list [], Value.bool false,
        Value.int 3, Value.dict [], Value.dict [], Value.none,
        [("test", ⟨c5Base, Value.bool false, Value.int 1⟩)], []⟩
        = .error (.valueError errs) ∧
      EKS.minSizeZeroMsg (EKS.managedErrorName "test") ∈ errs) ∧
    (¬c5Base.ami_id.truthy →
     ¬((Value.list []).truthy ∧ (Value.bool false).truthy) →
      EKS.init ⟨Value.str "1.20", Value.list [], Value.bool false, Value.int 3,
        Value.dict [], Value.dict [], Value.none, [],
        [("test", ⟨c5Base, Value.bool false, Value.bool false, Value.dict [], []⟩)]⟩
        = .ok ⟨Value.str "1.20", Value.list [], Value.bool false, Value.int 3,
            Value.dict [], Value.dict [], Value.none, [],
            [("test", ⟨c5Base, Value.bool false, Value.bool false,
              Value.dict [], []⟩)]⟩) ∧
    (∀ x, EKS.minSizeZeroMsg x ∉ EKS.postInitErrors
        ⟨Value.str "1.20", Value.list [], Value.bool false, Value.int 3,
         Value.dict [], Value.dict [], Value.none, [],
         [("test", ⟨c5Base, Value.bool false, Value.bool false,
           Value.dict [], []⟩)]⟩) :=
  C5_min_size_zero_managed_only c5Base "test" (Value.bool false) (Value.int 1)
    (Value.bool false) (Value.bool false) (Value.dict []) []
    (Value.str "1.20") (Value.list []) (Value.bool false) (Value.int 3)
    (Value.dict []) (Value.dict []) Value.none (by decide)

/-- C6: construction raises a `ValueError` whose payload holds the
mutual-exclusivity message exactly when `control_plane_access_cidrs` is
truthy (non-empty) and `private_api` is truthy; with only one of the two,
that message is never raised. -/
theorem C6_access_modes_mutually_exclusive (e : EKS) :
    (∃ errs, EKS.init e = .error (.valueError errs) ∧
        EKS.accessCidrsPrivateApiMsg ∈ errs) ↔
      (e.control_plane_access_cidrs.truthy ∧ e.private_api.truthy) := by
  constructor
  · rintro ⟨errs, herr, hmem⟩
    obtain ⟨hpe, _⟩ := EKS.init_error_inv herr
    have : errs = e.postInitErrors := (PyError.valueError.inj hpe)
    subst this
    exact (EKS.cidr_mem_postInitErrors_iff e).1 hmem
  · intro hv
    have hmem := (EKS.cidr_mem_postInitErrors_iff e).2 hv
    have hne : e.postInitErrors ≠ [] := fun hn => by
      rw [hn] at hmem
      simp at hmem
    exact ⟨e.postInitErrors, EKS.init_eq_error_of_ne_nil hne, hmem⟩

/-- C2: construction evaluates every rule before failing: it succeeds (as
the identity) exactly when no rule fires anywhere, it raises exactly when
some rule fires, and the single raised payload holds a message for every
violation found, for every nodegroup and the top level. -/
theorem C2_validation_accumulates_all_errors (e : EKS) :
    (EKS.init e = .ok e ↔ ¬EKS.hasViolation e) ∧
    ((∃ pe, EKS.init e = .error pe) ↔ EKS.hasViolation e) ∧
    (∀ errs, EKS.init e = .error (.valueError errs) →
      (∀ p ∈ e.managed_nodegroups,
        (EKS.managedUserDataViol p.2 →
          EKS.amiUserDataMsg (EKS.managedErrorName p.1) ∈ errs) ∧
        (EKS.managedIncompatViol p.2 →
          EKS.amiIncompatibleMsg (EKS.managedErrorName p.1) ∈ errs) ∧
        (EKS.managedMinSizeViol p.2 →
          EKS.minSizeZeroMsg (EKS.managedErrorName p.1) ∈ errs)) ∧
      (∀ p ∈ e.unmanaged_nodegroups,
        (EKS.unmanagedUserDataViol p.2 →
          EKS.amiUserDataMsg (EKS.unmanagedErrorName p.1) ∈ errs) ∧
        (EKS.unmanagedIncompatViol p.2 →
          EKS.amiIncompatibleMsg (EKS.unmanagedErrorName p.1) ∈ errs)) ∧
      (EKS.accessModesViol e → EKS.accessCidrsPrivateApiMsg ∈ errs)) := by
  refine ⟨⟨fun h => ?_, fun h => ?_⟩, ⟨fun h => ?_, fun h => ?_⟩, ?_⟩
  · obtain ⟨_, hnil⟩ := EKS.init_ok_inv h
    exact (EKS.postInitErrors_eq_nil_iff e).1 hnil
  · exact EKS.init_eq_ok_of_nil ((EKS.postInitErrors_eq_nil_iff e).2 h)
  · obtain ⟨pe, hpe⟩ := h
    obtain ⟨_, hne⟩ := EKS.init_error_inv hpe
    by_cases hv : EKS.hasViolation e
    · exact hv
    · exact absurd ((EKS.postInitErrors_eq_nil_iff e).2 hv) hne
  · have hne : e.postInitErrors ≠ [] := fun hn =>
      absurd ((EKS.postInitErrors_eq_nil_iff e).1 hn) (not_not.2 h)
    exact ⟨_, EKS.init_eq_error_of_ne_nil hne⟩
  · intro errs herr
    obtain ⟨hpe, _⟩ := EKS.init_error_inv herr
    have : errs = e.postInitErrors := PyError.valueError.inj hpe
    subst this
    refine ⟨fun p hp => ⟨fun hv => ?_, fun hv => ?_, fun hv => ?_⟩,
      fun p hp => ⟨fun hv => ?_, fun hv => ?_⟩, fun hv => ?_⟩
    · exact EKS.mem_postInitErrors_of_mem_managed hp
        (EKS.userData_mem_managedNgErrors hv)
    · exact EKS.mem_postInitErrors_of_mem_managed hp
        (EKS.incompat_mem_managedNgErrors hv)
    · exact EKS.mem_postInitErrors_of_mem_managed hp
        (EKS.minSize_mem_managedNgErrors hv)
    · exact EKS.mem_postInitErrors_of_mem_unmanaged hp
        (EKS.userData_mem_unmanagedNgErrors hv)
    · exact EKS.mem_postInitErrors_of_mem_unmanaged hp
        (EKS.incompat_mem_unmanagedNgErrors hv)
    · exact EKS.cidr_mem_postInitErrors hv

/-- The managed-nodegroup mapping of the C8 scenario: custom AMI with empty
`user_data`, `ssm_agent` on and non-empty labels, `min_size = 1`. -/
def c8Raw : RawDict :=
  [("ami_id", Value.str "ami-123"), ("user_data", Value.str ""),
   ("ssm_agent", Value.bool true), ("labels", Value.dict [("a", Value.str "b")]),
   ("min_size", Value.int 1), ("max_size", Value.int 2),
   ("disk_size", Value.int 100),
   ("instance_types", Value.list [Value.str "m5.large"]),
   ("tags", Value.dict []), ("spot", Value.bool false),
   ("desired_size", Value.int 1)]

/-- The nodegroup `c8Raw` loads to. -/
def c8Ng : EKS.ManagedNodegroup :=
  ⟨⟨Value.bool true, Value.int 100, Value.none, Value.int 1, Value.int 2,
    Value.str "ami-123", Value.str "", Value.list [Value.str "m5.large"],
    Value.dict [("a", Value.str "b")], Value.dict []⟩,
   Value.bool false, Value.int 1⟩

/-- An `EKS` holding that nodegroup under the name `test`, with benign
top-level fields. -/
def c8Eks : EKS :=
  ⟨Value.str "1.20", Value.list [], Value.bool false, Value.int 3,
   Value.dict [], Value.dict [], Value.none, [("test", c8Ng)], []⟩

/-- C8: on the example scenario, loading succeeds and construction raises
exactly the two AMI messages — `user_data` missing and
`ssm_agent`/`labels` incompatible — and the scale-to-zero message is not
among them. -/
theorem C8_ami_scenario_exact_errors :
    EKS.ManagedNodegroup.load c8Raw = .ok c8Ng ∧
    EKS.init c8Eks = .error (.valueError
      [EKS.amiUserDataMsg (EKS.managedErrorName "test"),
       EKS.amiIncompatibleMsg (EKS.managedErrorName "test")]) ∧
    EKS.minSizeZeroMsg (EKS.managedErrorName "test")
      ∉ [EKS.amiUserDataMsg (EKS.managedErrorName "test"),
         EKS.amiIncompatibleMsg (EKS.managedErrorName "test")] :=
  ⟨rfl, rfl, by decide⟩

/-- A 0.0.0 nodegroup entry carrying both a top-level `ami_id` (`ami-B`)
and a nested `machine_image.ami_id` (`ami-A`). -/
def c4cexEntry : RawDict :=
  [("ami_id", Value.str "ami-B"), ("user_data", Value.str "x"),
   ("machine_image", Value.dict [("ami_id", Value.str "ami-A")]),
   ("ssm_agent", Value.bool false), ("disk_size", Value.int 100),
   ("min_size", Value.int 1), ("max_size", Value.int 2),
   ("instance_types", Value.list [Value.str "m5.large"]),
   ("labels", Value.dict []), ("tags", Value.dict []),
   ("spot", Value.bool false), ("desired_size", Value.int 1)]

/-- A 0.0.0 configuration holding that entry as a managed nodegroup. -/
def c4cex : RawDict :=
  [("version", Value.str "1.20"), ("private_api", Value.bool false),
   ("max_nodegroup_azs", Value.int 3), ("global_node_labels", Value.dict []),
   ("global_node_tags", Value.dict []),
   ("managed_nodegroups", Value.dict [("g", Value.dict c4cexEntry)])]

/-- The nodegroup `from_0_0_0` produces for that entry: the top-level
`ami_id` wins over the nested one. -/
def c4cexNg : EKS.ManagedNodegroup :=
  ⟨⟨Value.bool false, Value.int 100, Value.none, Value.int 1, Value.int 2,
    Value.str "ami-B", Value.str "x", Value.list [Value.str "m5.large"],
    Value.dict [], Value.dict []⟩, Value.bool false, Value.int 1⟩

/-- The `EKS` object `from_0_0_0` produces for `c4cex`. -/
def c4cexEks : EKS :=
  ⟨Value.str "1.20", Value.list [], Value.bool false, Value.int 3,
   Value.dict [], Value.dict [], Value.none, [("g", c4cexNg)], []⟩

/-- C4, counterexample: the entry's `machine_image.ami_id` is `ami-A`, yet
`from_0_0_0` succeeds and produces a nodegroup whose `ami_id` is the
entry-level `ami-B`, because the entry's own keys override the
`machine_image` keys in the `{**machine_image, **ng}` merge. -/
theorem C4_counterexample :
    RawDict.find c4cexEntry "machine_image"
      = some (Value.dict [("ami_id", Value.str "ami-A")]) ∧
    RawDict.find c4cex "managed_nodegroups"
      = some (Value.dict [("g", Value.dict c4cexEntry)]) ∧
    EKS.from_0_0_0 c4cex = .ok c4cexEks ∧
    c4cexEks.managed_nodegroups = [("g", c4cexNg)] ∧
    c4cexNg.ami_id = Value.str "ami-B" ∧
    Value.str "ami-B" ≠ Value.str "ami-A" := by
  refine ⟨rfl, rfl, rfl, rfl, rfl, fun h => ?_⟩
  injection h with h2
  exact absurd h2 (by decide)

/-- C4, amended: for a 0.0.0 input accepted by `from_0_0_0`, a nodegroup
entry (managed or unmanaged) whose `machine_image` sub-mapping holds an
`ami_id` — and which has no top-level `ami_id` key of its own — yields a
nodegroup whose `ami_id` equals the nested value (the flattening merge
lets entry-level keys override `machine_image` keys). -/
theorem C4_machine_image_flattening (c : RawDict) (e : EKS)
    (h : EKS.from_0_0_0 c = .ok e) (name : String)
    (r m : List (String × Value)) (a : Value)
    (hna : "ami_id" ∉ RawDict.keys r)
    (hmi : RawDict.find r "machine_image" = some (Value.dict m))
    (hami : RawDict.find m "ami_id" = some a) :
    ((∃ ngs, (RawDict.find c "managed_nodegroups").getD (Value.dict [])
        = Value.dict ngs ∧ (name, Value.dict r) ∈ ngs) →
      ∃ ng, (name, ng) ∈ e.managed_nodegroups ∧ ng.ami_id = a) ∧
    ((∃ ngs, (RawDict.find c "nodegroups").getD (Value.dict [])
        = Value.dict ngs ∧ (name, Value.dict r) ∈ ngs) →
      ∃ ng, (name, ng) ∈ e.unmanaged_nodegroups ∧ ng.ami_id = a) := by
  obtain ⟨-, -, ⟨mitems, hitems1, hmap1⟩, ⟨uitems, hitems2, hmap2⟩⟩ :=
    EKS.from_0_0_0_ok_inv h
  constructor
  · rintro ⟨ngs, hgd, hmem⟩
    rw [hgd] at hitems1
    have : mitems = ngs := (Except.ok.inj hitems1).symm
    subst this
    obtain ⟨ng, hload, hout⟩ := mapEntries_ok_forward hmap1 hmem
    rw [except_bind_ok] at hload
    obtain ⟨d', hremap, hld⟩ := hload
    have hfind := EKS.remap_mi_ami hna hmi hami hremap
    obtain ⟨hng, -⟩ := EKS.managed_load_ok_inv hld
    refine ⟨ng, hout, ?_⟩
    rw [hng]
    show (RawDict.find d' "ami_id").getD Value.none = a
    rw [hfind]
    rfl
  · rintro ⟨ngs, hgd, hmem⟩
    rw [hgd] at hitems2
    have : uitems = ngs := (Except.ok.inj hitems2).symm
    subst this
    obtain ⟨ng, hload, hout⟩ := mapEntries_ok_forward hmap2 hmem
    rw [except_bind_ok] at hload
    obtain ⟨d', hremap, hld⟩ := hload
    have hfind := EKS.remap_mi_ami hna hmi hami hremap
    obtain ⟨hng, -⟩ := EKS.unmanaged_load_ok_inv hld
    refine ⟨ng, hout, ?_⟩
    rw [hng]
    show (RawDict.find d' "ami_id").getD Value.none = a
    rw [hfind]
    rfl

/-- A 0.0.0 managed entry with the AMI only under `machine_image`. -/
def c4wEntryM : RawDict :=
  [("machine_image", Value.dict [("ami_id", Value.str "ami-A"),
      ("user_data", Value.str "x")]),
   ("ssm_agent", Value.bool false), ("disk_size", Value.int 100),
   ("min_size", Value.int 1), ("max_size", Value.int 2),
   ("instance_types", Value.list [Value.str "m5.large"]),
   ("labels", Value.dict []), ("tags", Value.dict []),
   ("spot", Value.bool false), ("desired_size", Value.int 1)]

/-- A 0.0.0 unmanaged entry with the AMI only under `machine_image`. -/
def c4wEntryU : RawDict :=
  [("machine_image", Value.dict [("ami_id", Value.str "ami-A"),
      ("user_data", Value.str "x")]),
   ("ssm_agent", Value.bool false), ("disk_size", Value.int 100),
   ("min_size", Value.int 0), ("max_size", Value.int 2),
   ("instance_types", Value.list [Value.str "m5.large"]),
   ("labels", Value.dict []), ("tags", Value.dict []),
   ("gpu", Value.bool false)]

/-- A 0.0.0 configuration with one managed and one unmanaged entry, each
carrying its AMI only in `machine_image`. -/
def c4w : RawDict :=
  [("version", Value.str "1.20"), ("private_api", Value.bool false),
   ("max_nodegroup_azs", Value.int 3), ("global_node_labels", Value.dict []),
   ("global_node_tags", Value.dict []),
   ("managed_nodegroups", Value.dict [("gm", Value.dict c4wEntryM)]),
   ("nodegroups", Value.dict [("gu", Value.dict c4wEntryU)])]

/-- The `EKS` object `from_0_0_0` produces for `c4w`. -/
def c4wEks : EKS :=
  ⟨Value.str "1.20", Value.list [], Value.bool false, Value.int 3,
   Value.dict [], Value.dict [], Value.none,
   [("gm", ⟨⟨Value.bool false, Value.int 100, Value.none, Value.int 1,
      Value.int 2, Value.str "ami-A", Value.str "x",
      Value.list [Value.str "m5.large"], Value.dict [], Value.dict []⟩,
     Value.bool false, Value.int 1⟩)],
   [("gu", ⟨⟨Value.bool false, Value.int 100, Value.none, Value.int 0,
      Value.int 2, Value.str "ami-A", Value.str "x",
      Value.list [Value.str "m5.large"], Value.dict [], Value.dict []⟩,
     Value.bool false, Value.bool false, Value.dict [], []⟩)]⟩

theorem C4_machine_image_flattening_witness :
    (∃ ng, ("gm", ng) ∈ c4wEks.managed_nodegroups ∧
      ng.ami_id = Value.str "ami-A") ∧
    (∃ ng, ("gu", ng) ∈ c4wEks.unmanaged_nodegroups ∧
      ng.ami_id = Value.str "ami-A") :=
  ⟨(C4_machine_image_flattening c4w c4wEks rfl "gm" c4wEntryM
      [("ami_id", Value.str "ami-A"), ("user_data", Value.str "x")]
      (Value.str "ami-A") (by decide) rfl rfl).1
    ⟨[("gm", Value.dict c4wEntryM)], rfl, List.mem_singleton.2 rfl⟩,
   (C4_machine_image_flattening c4w c4wEks rfl "gu" c4wEntryU
      [("ami_id", Value.str "ami-A"), ("user_data", Value.str "x")]
      (Value.str "ami-A") (by decide) rfl rfl).2
    ⟨[("gu", Value.dict c4wEntryU)], rfl, List.mem_singleton.2 rfl⟩⟩

/-- C7: every `EKS` produced by `from_0_0_0` has an empty
`control_plane_access_cidrs`, no `secrets_encryption_key_arn`, and
`imdsv2_required = False` on every unmanaged nodegroup, whatever the input
held. -/
theorem C7_from_0_0_0_forced_defaults (c : RawDict) (e : EKS)
    (h : EKS.from_0_0_0 c = .ok e) :
    e.control_plane_access_cidrs = Value.list [] ∧
    e.secrets_encryption_key_arn = Value.none ∧
    ∀ p ∈ e.unmanaged_nodegroups, p.2.imdsv2_required = Value.bool false := by
  obtain ⟨hcpac, hseka, -, ⟨uitems, hitems, hmap⟩⟩ := EKS.from_0_0_0_ok_inv h
  refine ⟨hcpac, hseka, fun p hp => ?_⟩
  obtain ⟨v, hv, hload⟩ := mapEntries_ok_backward hmap hp
  rw [except_bind_ok] at hload
  obtain ⟨d', hremap, hld⟩ := hload
  have hfind := EKS.remap_mi_imdsv2 hremap
  obtain ⟨hng, -⟩ := EKS.unmanaged_load_ok_inv hld
  rw [hng]
  show (RawDict.find d' "imdsv2_required").getD Value.none = Value.bool false
  rw [hfind]
  rfl

/-- A 0.0.0 unmanaged entry that asks for `imdsv2_required = True`. -/
def c7wEntry : RawDict :=
  [("ssm_agent", Value.bool false), ("disk_size", Value.int 100),
   ("min_size", Value.int 0), ("max_size", Value.int 2),
   ("instance_types", Value.list [Value.str "m5.large"]),
   ("labels", Value.dict []), ("tags", Value.dict []),
   ("gpu", Value.bool false), ("imdsv2_required", Value.bool true),
   ("taints", Value.dict [])]

/-- A 0.0.0 configuration holding that entry under `nodegroups`. -/
def c7w : RawDict :=
  [("version", Value.str "1.20"), ("private_api", Value.bool false),
   ("max_nodegroup_azs", Value.int 3), ("global_node_labels", Value.dict []),
   ("global_node_tags", Value.dict []),
   ("nodegroups", Value.dict [("u", Value.dict c7wEntry)])]

/-- The `EKS` object `from_0_0_0` produces for `c7w`: note
`imdsv2_required` came back `False` although the input said `True`. -/
def c7wEks : EKS :=
  ⟨Value.str "1.20", Value.list [], Value.bool false, Value.int 3,
   Value.dict [], Value.dict [], Value.none, [],
   [("u", ⟨⟨Value.bool false, Value.int 100, Value.none, Value.int 0,
      Value.int 2, Value.none, Value.none, Value.list [Value.str "m5.large"],
      Value.dict [], Value.dict []⟩,
     Value.bool false, Value.bool false, Value.dict [], []⟩)]⟩

theorem C7_from_0_0_0_forced_defaults_witness :
    c7wEks.control_plane_access_cidrs = Value.list [] ∧
    c7wEks.secrets_encryption_key_arn = Value.none ∧
    ∀ p ∈ c7wEks.unmanaged_nodegroups, p.2.imdsv2_required = Value.bool false :=
  C7_from_0_0_0_forced_defaults c7w c7wEks rfl

/-- Either every top-level key `from_0_0_1` requires is present, or
`from_0_0_1` fails with a `KeyError` (the first missing one, in pop
order). -/
theorem EKS.from_0_0_1_req_or_err (c : RawDict) :
    (∀ r ∈ ["version", "control_plane_access_cidrs", "private_api",
        "max_nodegroup_azs", "global_node_labels", "global_node_tags"],
      r ∈ RawDict.keys c) ∨
    ∃ k, EKS.from_0_0_1 c = .error (.keyError k) := by
  by_cases m1 : "version" ∈ RawDict.keys c
  · obtain ⟨v1, f1⟩ := Option.isSome_iff_exists.1 (RawDict.find_isSome_iff_mem.2 m1)
    by_cases m2 : "control_plane_access_cidrs" ∈ RawDict.keys c
    · obtain ⟨v2, g2⟩ := Option.isSome_iff_exists.1
        (RawDict.find_isSome_iff_mem.2 m2)
      have f2 : RawDict.find (RawDict.removeKey c "version")
          "control_plane_access_cidrs" = some v2 :=
        (RawDict.find_removeKey_ne (by decide)).trans g2
      by_cases m3 : "private_api" ∈ RawDict.keys c
      · obtain ⟨v3, g3⟩ := Option.isSome_iff_exists.1
          (RawDict.find_isSome_iff_mem.2 m3)
        have f3 : RawDict.find (RawDict.removeKey (RawDict.removeKey c "version")
            "control_plane_access_cidrs") "private_api" = some v3 :=
          (RawDict.find_rm2 (by decide) (by decide)).trans g3
        by_cases m4 : "max_nodegroup_azs" ∈ RawDict.keys c
        · obtain ⟨v4, g4⟩ := Option.isSome_iff_exists.1
            (RawDict.find_isSome_iff_mem.2 m4)
          have f4 : RawDict.find (RawDict.removeKey (RawDict.removeKey
              (RawDict.removeKey (RawDict.removeKey c "version")
              "control_plane_access_cidrs") "private_api")
              "secrets_encryption_key_arn") "max_nodegroup_azs" = some v4 :=
            (RawDict.find_rm4 (by decide) (by decide) (by decide)
              (by decide)).trans g4
          by_cases m5 : "global_node_labels" ∈ RawDict.keys c
          · obtain ⟨v5, g5⟩ := Option.isSome_iff_exists.1
              (RawDict.find_isSome_iff_mem.2 m5)
            have f5 : RawDict.find (RawDict.removeKey (RawDict.removeKey
                (RawDict.removeKey (RawDict.removeKey (RawDict.removeKey c
                "version") "control_plane_access_cidrs") "private_api")
                "secrets_encryption_key_arn") "max_nodegroup_azs")
                "global_node_labels" = some v5 :=
              (RawDict.find_rm5 (by decide) (by decide) (by decide) (by decide)
                (by decide)).trans g5
            by_cases m6 : "global_node_tags" ∈ RawDict.keys c
            · refine Or.inl fun r hr => ?_
              simp only [List.mem_cons, List.not_mem_nil, or_false] at hr
              rcases hr with rfl | rfl | rfl | rfl | rfl | rfl <;> assumption
            · refine Or.inr ⟨"global_node_tags", ?_⟩
              have e6 : RawDict.find (RawDict.removeKey (RawDict.removeKey
                  (RawDict.removeKey (RawDict.removeKey (RawDict.removeKey
                  (RawDict.removeKey c "version") "control_plane_access_cidrs")
                  "private_api") "secrets_encryption_key_arn")
                  "max_nodegroup_azs") "global_node_labels") "global_node_tags"
                  = Option.none :=
                (RawDict.find_rm6 (by decide) (by decide) (by decide) (by decide)
                  (by decide) (by decide)).trans
                  (RawDict.find_eq_none_of_not_mem m6)
              simp only [EKS.from_0_0_1, RawDict.popD_eq,
                RawDict.pop_eq_ok_of_find f1, RawDict.pop_eq_ok_of_find f2,
                RawDict.pop_eq_ok_of_find f3, RawDict.pop_eq_ok_of_find f4,
                RawDict.pop_eq_ok_of_find f5,
                RawDict.pop_eq_error_of_find e6, okBind, errorBind]
          · refine Or.inr ⟨"global_node_labels", ?_⟩
            have e5 : RawDict.find (RawDict.removeKey (RawDict.removeKey
                (RawDict.removeKey (RawDict.removeKey (RawDict.removeKey c
                "version") "control_plane_access_cidrs") "private_api")
                "secrets_encryption_key_arn") "max_nodegroup_azs")
                "global_node_labels" = Option.none :=
              (RawDict.find_rm5 (by decide) (by decide) (by decide) (by decide)
                (by decide)).trans (RawDict.find_eq_none_of_not_mem m5)
            simp only [EKS.from_0_0_1, RawDict.popD_eq,
              RawDict.pop_eq_ok_of_find f1, RawDict.pop_eq_ok_of_find f2,
              RawDict.pop_eq_ok_of_find f3, RawDict.pop_eq_ok_of_find f4,
              RawDict.pop_eq_error_of_find e5, okBind, errorBind]
        · refine Or.inr ⟨"max_nodegroup_azs", ?_⟩
          have e4 : RawDict.find (RawDict.removeKey (RawDict.removeKey
              (RawDict.removeKey (RawDict.removeKey c "version")
              "control_plane_access_cidrs") "private_api")
              "secrets_encryption_key_arn") "max_nodegroup_azs" = Option.none :=
            (RawDict.find_rm4 (by decide) (by decide) (by decide)
              (by decide)).trans (RawDict.find_eq_none_of_not_mem m4)
          simp only [EKS.from_0_0_1, RawDict.popD_eq,
            RawDict.pop_eq_ok_of_find f1, RawDict.pop_eq_ok_of_find f2,
            RawDict.pop_eq_ok_of_find f3,
            RawDict.pop_eq_error_of_find e4, okBind, errorBind]
      · refine Or.inr ⟨"private_api", ?_⟩
        have e3 : RawDict.find (RawDict.removeKey (RawDict.removeKey c "version")
            "control_plane_access_cidrs") "private_api" = Option.none :=
          (RawDict.find_rm2 (by decide) (by decide)).trans
            (RawDict.find_eq_none_of_not_mem m3)
        simp only [EKS.from_0_0_1,
          RawDict.pop_eq_ok_of_find f1, RawDict.pop_eq_ok_of_find f2,
          RawDict.pop_eq_error_of_find e3, okBind, errorBind]
    · refine Or.inr ⟨"control_plane_access_cidrs", ?_⟩
      have e2 : RawDict.find (RawDict.removeKey c "version")
          "control_plane_access_cidrs" = Option.none :=
        (RawDict.find_removeKey_ne (by decide)).trans
          (RawDict.find_eq_none_of_not_mem m2)
      simp only [EKS.from_0_0_1, RawDict.pop_eq_ok_of_find f1,
        RawDict.pop_eq_error_of_find e2, okBind, errorBind]
  · refine Or.inr ⟨"version", ?_⟩
    simp only [EKS.from_0_0_1,
      RawDict.pop_eq_error_of_find (RawDict.find_eq_none_of_not_mem m1), errorBind]

/-- C10: `from_0_0_1` requires the six top-level keys — the absence of any
one makes it fail with a `KeyError` — while `secrets_encryption_key_arn`
defaults to `None` and the two nodegroup mappings default to empty when
their keys are absent. -/
theorem C10_from_0_0_1_required_keys_and_defaults (c : RawDict) :
    (∀ r ∈ ["version", "control_plane_access_cidrs", "private_api",
        "max_nodegroup_azs", "global_node_labels", "global_node_tags"],
      r ∉ RawDict.keys c → ∃ k, EKS.from_0_0_1 c = .error (.keyError k)) ∧
    (∀ e : EKS, EKS.from_0_0_1 c = .ok e →
      ("secrets_encryption_key_arn" ∉ RawDict.keys c →
        e.secrets_encryption_key_arn = Value.none) ∧
      ("managed_nodegroups" ∉ RawDict.keys c → e.managed_nodegroups = []) ∧
      ("unmanaged_nodegroups" ∉ RawDict.keys c → e.unmanaged_nodegroups = [])) := by
  constructor
  · intro r hr hnot
    rcases EKS.from_0_0_1_req_or_err c with hall | hex
    · exact absurd (hall r hr) hnot
    · exact hex
  · intro e h
    obtain ⟨hsek, ⟨mitems, hitems1, hmap1⟩, ⟨uitems, hitems2, hmap2⟩⟩ :=
      EKS.from_0_0_1_ok_inv h
    refine ⟨fun hn => ?_, fun hn => ?_, fun hn => ?_⟩
    · rw [hsek, RawDict.find_eq_none_of_not_mem hn]
      rfl
    · rw [RawDict.find_eq_none_of_not_mem hn] at hitems1
      have h1 : ([] : List (String × Value)) = mitems := Except.ok.inj hitems1
      subst h1
      exact (Except.ok.inj hmap1).symm
    · rw [RawDict.find_eq_none_of_not_mem hn] at hitems2
      have h1 : ([] : List (String × Value)) = uitems := Except.ok.inj hitems2
      subst h1
      exact (Except.ok.inj hmap2).symm

end DominoCdk
